import Mathlib

/-!
# ocl-route: the two OpenCL host harnesses

A shallow embedding of

* `OpenCL Routing/main.c` (namespace `OpenCLRouting`): the square-kernel harness,
* `array_sum/add.c` (namespace `ArraySum`): the vector-add harness.

Both programs are straight-line drivers of the OpenCL host API.  The API itself is
outside the repository, so every call is modelled by its *outcome*, supplied by an
environment record (`Env`): the status code it returns, the handle it yields, the data
it writes.  A run of `main` is the value `Run`: the ordered trace of API calls, the
lines written to standard output, and the integer handed to `return`/`exit`.

C `float` values are kept abstract (`FloatOps`): the harnesses only convert loop
counters to `float`, add or multiply two values and compare with `==`/`!=`.
-/

/-! ## Shared vocabulary -/

/-- The status every OpenCL entry point returns on success. -/
def CL_SUCCESS : Int := 0

/-- Value of the `stdlib.h` constant used by `return EXIT_FAILURE`. -/
def EXIT_FAILURE : Int := 1

/-- Largest value of a C `int` (32 bit). -/
def INT_MAX : Int := 2147483647

/-- Reduction of a mathematical integer to the value a 32-bit `int` holds. -/
def wrap32 (x : Int) : Int := (x + 2147483648) % 4294967296 - 2147483648

/-- Calls into the compute API, as they appear in the two sources.  The dispatch carries
the global and local work sizes it is given, the two transfers their blocking flag, and
`clSetKernelArg` the parameter slot. -/
inductive Call where
  | clGetPlatformIDs
  | clGetDeviceIDs
  | clGetDeviceInfo
  | clCreateContext
  | clCreateCommandQueue
  | clCreateProgramWithSource
  | clBuildProgram
  | clGetProgramBuildInfo
  | clCreateKernel
  | clCreateBuffer
  | clEnqueueWriteBuffer (blocking : Bool)
  | clSetKernelArg (slot : Nat)
  | clGetKernelWorkGroupInfo
  | clEnqueueNDRangeKernel (global_ws local_ws : Nat)
  | clFinish
  | clEnqueueReadBuffer (blocking : Bool)
  | clReleaseMemObject
  | clReleaseProgram
  | clReleaseKernel
  | clReleaseCommandQueue
  | clReleaseContext
  deriving DecidableEq, Repr

/-- Recogniser of a kernel dispatch, whatever its geometry. -/
def Call.isDispatch : Call → Bool
  | .clEnqueueNDRangeKernel _ _ => true
  | _ => false

/-- Recogniser of a device-to-host read-back. -/
def Call.isReadBack : Call → Bool
  | .clEnqueueReadBuffer _ => true
  | _ => false

/-- Recogniser of the join `clFinish`. -/
def Call.isFinish : Call → Bool
  | .clFinish => true
  | _ => false

/-- Recogniser of a blocking host-to-device write. -/
def Call.isBlockingWrite : Call → Bool
  | .clEnqueueWriteBuffer true => true
  | _ => false

/-- Observable behaviour of one execution of a harness. -/
structure Run where
  /-- API calls in the order they were made -/
  trace : List Call
  /-- lines written to standard output, in order -/
  out : List String
  /-- argument of the `return` from `main` or of `exit` that ended the run -/
  code : Int
  deriving DecidableEq, Repr

/-- Exit status seen by the parent process: the low eight bits of the code. -/
def Run.exitStatus (r : Run) : Int := r.code % 256

/-- A run that ends at once, printing `lines` and leaving with `code`. -/
def stop (lines : List String) (code : Int) : Run := ⟨[], lines, code⟩

/-- Sequencing: first the API calls `calls` are made and `lines` printed, then the run
continues as `rest`. -/
def andThen (calls : List Call) (lines : List String) (rest : Run) : Run :=
  ⟨calls ++ rest.trace, lines ++ rest.out, rest.code⟩

/-- The operations on C `float` the harnesses use. -/
structure FloatOps (α : Type) where
  /-- conversion `(float) i` of the loop counter -/
  ofInt : Int → α
  /-- `a + b` -/
  add : α → α → α
  /-- `a * b` -/
  mul : α → α → α
  /-- `a == b`; `a != b` is its negation -/
  eq : α → α → Bool

/-- Text of `printf("%d", v)` for a value that fits an `int`. -/
def fmt_d (v : Int) : String := toString v

/-- Text of `printf("%zd", v)` for a `size_t` value `v`: it is read as signed. -/
def fmt_zd (v : Nat) : String :=
  if v % 18446744073709551616 < 9223372036854775808 then toString (v % 18446744073709551616)
  else toString ((v % 18446744073709551616 : Nat) - (18446744073709551616 : Int))

/-- The integers as a stand-in for `float` on inputs whose values, sums and products are
integers below `2 ^ 24`, where binary32 arithmetic is exact. -/
def exactOps : FloatOps Int where
  ofInt := fun i => i
  add := fun a b => a + b
  mul := fun a b => a * b
  eq := fun a b => decide (a = b)

/-! ## `OpenCL Routing/main.c` -/

namespace OpenCLRouting

/-- The macro `NUM_VALUES`. -/
def NUM_VALUES : Nat := 512 * 1000

/-- Outcomes of the API calls and of the file system for one run of `main.c`. -/
structure Env (α : Type) where
  /-- status of `clGetDeviceIDs` -/
  getDeviceIDs : Int
  /-- device name, `CL_DEVICE_NAME` -/
  name : String
  /-- device vendor, `CL_DEVICE_VENDOR` -/
  vendor : String
  /-- device limit `CL_DEVICE_MAX_WORK_GROUP_SIZE` -/
  max_workgroup_size : Nat
  /-- device limit `CL_DEVICE_MAX_WORK_ITEM_SIZES` (first component) -/
  max_workitem_size : Nat
  /-- handle from `clCreateContext`, `0` for NULL -/
  context : Nat
  /-- handle from `clCreateCommandQueue`, `0` for NULL -/
  commands : Nat
  /-- contents of `kernels.cl`, or `none` when `fopen` fails -/
  kernels_cl : Option String
  /-- handle from `clCreateProgramWithSource` -/
  program : Nat
  /-- status of `clBuildProgram` -/
  buildProgram : Int
  /-- what `clGetProgramBuildInfo(.., CL_PROGRAM_BUILD_LOG, ..)` leaves in `buffer` -/
  buildLog : String
  /-- handle from `clCreateKernel` -/
  kernel : Nat
  /-- status `clCreateKernel` stores in `err` -/
  createKernel : Int
  /-- handle of the input buffer -/
  in_buf : Nat
  /-- handle of the output buffer -/
  out_buf : Nat
  /-- status of `clEnqueueWriteBuffer` -/
  writeBuffer : Int
  /-- status of `clSetKernelArg(kernel, 0, ..)` -/
  setKernelArg0 : Int
  /-- status of `clSetKernelArg(kernel, 1, ..)` -/
  setKernelArg1 : Int
  /-- status of `clGetKernelWorkGroupInfo` -/
  workGroupInfo : Int
  /-- the `CL_KERNEL_WORK_GROUP_SIZE` it stores in `local` -/
  workGroupSize : Nat
  /-- status of `clEnqueueNDRangeKernel` -/
  ndRangeKernel : Int
  /-- status of `clFinish` -/
  finish : Int
  /-- status of `clEnqueueReadBuffer` -/
  readBuffer : Int
  /-- rendering of the measured CPU time under `%.5f` -/
  time_spent : String
  /-- contents of `out_data` after the read-back -/
  out_data : Nat → α

/-- Function `load_program_source`: `0` (here `none`) when the file cannot be opened,
otherwise the whole text of the file. -/
def load_program_source (file : Option String) : Option String :=
  match file with
  | none => none
  | some text => some text

/-- The line `print_device_info` writes. -/
def deviceInfoLine {α : Type} (env : Env α) : String :=
  env.vendor ++ ": " ++ env.name ++ ", wg size: " ++ fmt_zd env.max_workgroup_size ++
    ", item size: " ++ fmt_zd env.max_workitem_size

/-- The validation loop of `main` (lines 206-211): `k` iterations are left, `i` is the
loop counter and `correct` the `unsigned int` counter. -/
def countCorrect {α : Type} (ops : FloatOps α) (in_data out_data : Nat → α) :
    Nat → Nat → Nat → Nat
  | 0, _, correct => correct
  | k + 1, i, correct =>
    countCorrect ops in_data out_data k (i + 1)
      (if ops.eq (out_data i) (ops.mul (in_data i) (in_data i)) then
        (correct + 1) % 4294967296
      else correct)

/-- The summary line `printf("Computed '%d/%d' correct values!\n", correct, NUM_VALUES)`;
`correct` is an `unsigned int` read back as `int`. -/
def summaryLine (correct N : Nat) : String :=
  "Computed '" ++ fmt_d (wrap32 correct) ++ "/" ++ fmt_d N ++ "' correct values!"

/-- Lines 205-224 of `main`: validation, summary, release of the resources, `return 0`.
`N` stands for `NUM_VALUES`. -/
def validate {α : Type} (ops : FloatOps α) (N : Nat) (in_data out_data : Nat → α) : Run :=
  andThen [] [summaryLine (countCorrect ops in_data out_data N 0 0) N]
    (andThen [.clReleaseMemObject, .clReleaseMemObject, .clReleaseProgram, .clReleaseKernel,
        .clReleaseCommandQueue, .clReleaseContext] []
      (stop [] 0))

/-- The local size chosen at lines 168-170. -/
def clampLocal (N m : Nat) : Nat := if m > N then N else m

/-- Function `main` of `main.c`, with the macro `NUM_VALUES` as the parameter `N`. -/
def mainWith {α : Type} (ops : FloatOps α) (N : Nat) (env : Env α) : Run :=
  andThen [.clGetDeviceIDs] [] <|
  if env.getDeviceIDs ≠ CL_SUCCESS then
    stop ["Error: Failed to locate a compute device!"] EXIT_FAILURE
  else
  andThen [.clGetDeviceInfo, .clGetDeviceInfo, .clGetDeviceInfo, .clGetDeviceInfo]
    [deviceInfoLine env] <|
  andThen [.clCreateContext] [] <|
  if env.context = 0 then stop [] EXIT_FAILURE else
  andThen [.clCreateCommandQueue] [] <|
  if env.commands = 0 then stop [] EXIT_FAILURE else
  match load_program_source env.kernels_cl with
  | none => stop ["Error: Failed to load kernel file"] EXIT_FAILURE
  | some _ =>
  andThen [.clCreateProgramWithSource] [] <|
  if env.program = 0 then stop ["Error: Failed to create compute program!"] EXIT_FAILURE else
  andThen [.clBuildProgram] [] <|
  if env.buildProgram ≠ CL_SUCCESS then
    andThen [] ["Error: Failed to build program executable!"] <|
    andThen [.clGetProgramBuildInfo] [env.buildLog] <|
    stop [] 1
  else
  andThen [.clCreateKernel] [] <|
  if env.kernel = 0 ∨ env.createKernel ≠ CL_SUCCESS then
    stop ["Error: Failed to create compute kernel!"] 1
  else
  let in_data : Nat → α := fun i => ops.ofInt i
  andThen [.clCreateBuffer, .clCreateBuffer] [] <|
  if env.in_buf = 0 ∨ env.out_buf = 0 then
    stop ["Error: failed to allocate input output buffer on device"] EXIT_FAILURE
  else
  andThen [.clEnqueueWriteBuffer true] [] <|
  let err := Int.lor env.setKernelArg0 env.setKernelArg1
  andThen [.clSetKernelArg 0, .clSetKernelArg 1] [] <|
  if err ≠ CL_SUCCESS then
    stop ["Error: Failed to set kernel arguments! " ++ fmt_d err] 1
  else
  andThen [.clGetKernelWorkGroupInfo] [] <|
  if env.workGroupInfo ≠ CL_SUCCESS then
    stop ["Error: Failed to retrieve kernel work group info! " ++ fmt_d env.workGroupInfo] 1
  else
  let lsize := clampLocal N env.workGroupSize
  andThen [] ["Max local work group size is " ++ fmt_zd env.workGroupSize,
    "Using work group size of " ++ fmt_zd lsize] <|
  let gsize := N
  andThen [.clEnqueueNDRangeKernel gsize lsize] [] <|
  if env.ndRangeKernel ≠ 0 then stop ["Error: Failed to execute kernel!"] EXIT_FAILURE else
  andThen [.clFinish] ["Spent " ++ env.time_spent ++ " seconds executing"] <|
  andThen [.clEnqueueReadBuffer true] [] <|
  if env.readBuffer ≠ CL_SUCCESS then
    stop ["Error: Failed to read output array! " ++ fmt_d env.readBuffer] 1
  else
  validate ops N in_data env.out_data

/-- Function `main` of `main.c` as compiled: `NUM_VALUES` is `512 * 1000`. -/
def main {α : Type} (ops : FloatOps α) (env : Env α) : Run := mainWith ops NUM_VALUES env

end OpenCLRouting

/-! ## `array_sum/add.c` -/

namespace ArraySum

/-- The constant `SIZE`. -/
def SIZE : Int := 12345678

/-- Outcomes of the API calls and of the file system for one run of `add.c`. -/
structure Env (α : Type) where
  /-- contents of the file at `KERNEL_SOURCE_PATH`, or `none` when `open` fails -/
  kernel_source : Option String
  /-- whether `malloc` for the source text succeeds -/
  malloc_ok : Bool
  /-- status of `clGetPlatformIDs` -/
  getPlatformIDs : Int
  /-- status of `clGetDeviceIDs` -/
  getDeviceIDs : Int
  /-- device limit `CL_DEVICE_MAX_WORK_GROUP_SIZE`; `add.c` never asks for it -/
  max_workgroup_size : Nat
  /-- handle from `clCreateContext`, `0` for NULL -/
  context : Nat
  /-- handle from `clCreateCommandQueue`, `0` for NULL -/
  queue : Nat
  /-- handle from `clCreateProgramWithSource` -/
  program : Nat
  /-- status of `clBuildProgram` -/
  buildProgram : Int
  /-- the build log the device would hand out; `add.c` never asks for it -/
  buildLog : String
  /-- status `clCreateKernel` stores in `err` -/
  createKernel : Int
  /-- status stored by the first `clCreateBuffer` -/
  createBuffer1 : Int
  /-- status stored by the second `clCreateBuffer` -/
  createBuffer2 : Int
  /-- status stored by the third `clCreateBuffer` -/
  createBuffer3 : Int
  /-- status of `clSetKernelArg(vector_add_k, 0, ..)` -/
  setKernelArg0 : Int
  /-- status of `clSetKernelArg(vector_add_k, 1, ..)` -/
  setKernelArg1 : Int
  /-- status of `clSetKernelArg(vector_add_k, 2, ..)` -/
  setKernelArg2 : Int
  /-- status of `clSetKernelArg(vector_add_k, 3, ..)` -/
  setKernelArg3 : Int
  /-- status of `clEnqueueNDRangeKernel` -/
  ndRangeKernel : Int
  /-- status of `clFinish` -/
  finish : Int
  /-- status of `clEnqueueReadBuffer` -/
  readBuffer : Int
  /-- contents of `res_h` when the validation loop runs -/
  res_h : Nat → α
  /-- text `printf` writes for the conversion after `expected` in the mismatch message:
  the argument is a `float` read under `%d`, which the C standard leaves undefined, so the
  text is an outcome of the run and no function of the value -/
  expected_d : String
  /-- text `printf` writes for the conversion after `got` in the mismatch message, a
  `float` read under `%d` as well -/
  got_d : String

/-- Function `get_k_source`: the text of the kernel file, or the run that `exit(-1)`
produces.  The `read` loop is taken to deliver the whole file. -/
def get_k_source {α : Type} (env : Env α) : Except Run String :=
  match env.kernel_source with
  | none => .error (stop ["bad file handler"] (-1))
  | some text =>
    if env.malloc_ok = false then .error (stop ["insufficient memory"] (-1))
    else .ok text

/-- Function `multiple` on C `int`: `/` and `%` truncate, every result is an `int`. -/
def multiple (base res : Int) : Int :=
  let div := Int.tdiv res base
  if Int.tmod res base > 0 then wrap32 (wrap32 (div + 1) * base)
  else wrap32 (div * base)

/-- The line `printf("element %d, expected %d, got %d\n", i, res_h[i], src_h[i] + src_h[i])`
prints for the first element that does not validate.  The index `i` is an `int` under
`%d`; the other two arguments are `float` values under `%d`, whose text `expected_d` and
`got_d` is whatever the run produced. -/
def mismatchLine (i : Nat) (expected_d got_d : String) : String :=
  "element " ++ fmt_d i ++ ", expected " ++ expected_d ++ ", got " ++ got_d

/-- The validation loop and the end of `main` (lines 174-187): `k` iterations are left and
`i` is the loop counter; `expected_d` and `got_d` are the texts of the two undefined
conversions of the mismatch message. -/
def checkResults {α : Type} (ops : FloatOps α) (src_h res_h : Nat → α)
    (expected_d got_d : String) : Nat → Nat → Run
  | 0, _ => stop ["everything worked out!"] 0
  | k + 1, i =>
    if ops.eq (res_h i) (ops.add (src_h i) (src_h i)) = false then
      stop [mismatchLine i expected_d got_d] (-1)
    else checkResults ops src_h res_h expected_d got_d k (i + 1)

/-- Function `main` of `add.c`, with the constant `SIZE` as the parameter `N`. -/
def mainWith {α : Type} (ops : FloatOps α) (N : Int) (env : Env α) : Run :=
  match get_k_source env with
  | .error r => r
  | .ok _ =>
  let local_ws : Nat := 256
  let global_ws : Nat := Int.toNat (multiple local_ws N % 18446744073709551616)
  let src_h : Nat → α := fun i => ops.ofInt i
  andThen [.clGetPlatformIDs] [] <|
  if env.getPlatformIDs ≠ CL_SUCCESS then stop ["couldn't get platform id"] (-1) else
  andThen [.clGetDeviceIDs] [] <|
  if env.getDeviceIDs ≠ CL_SUCCESS then
    stop ["Error getting device ids " ++ fmt_d env.getDeviceIDs] (-1)
  else
  andThen [.clCreateContext] [] <|
  if env.context = 0 then stop ["Error creating compute context"] (-1) else
  andThen [.clCreateCommandQueue] [] <|
  if env.queue = 0 then stop ["Error creating command queue"] (-1) else
  andThen [.clCreateProgramWithSource] [] <|
  if env.program = 0 then stop ["Error creating program"] (-1) else
  andThen [.clBuildProgram] [] <|
  if env.buildProgram ≠ CL_SUCCESS then stop ["Error building program"] (-1) else
  andThen [.clCreateKernel] [] <|
  if env.createKernel ≠ CL_SUCCESS then stop ["Error creating kernel"] (-1) else
  andThen [.clCreateBuffer] [] <|
  if env.createBuffer1 ≠ CL_SUCCESS then stop ["Error creating memory 1"] (-1) else
  andThen [.clCreateBuffer] [] <|
  if env.createBuffer2 ≠ CL_SUCCESS then stop ["Error creating memory 2"] (-1) else
  andThen [.clCreateBuffer] [] <|
  if env.createBuffer3 ≠ CL_SUCCESS then stop ["Error creating memory 3"] (-1) else
  let err := Int.lor (Int.lor (Int.lor env.setKernelArg0 env.setKernelArg1)
    env.setKernelArg2) env.setKernelArg3
  andThen [.clSetKernelArg 0, .clSetKernelArg 1, .clSetKernelArg 2, .clSetKernelArg 3] [] <|
  if err ≠ CL_SUCCESS then stop ["error setting kernel paramaters..."] (-1) else
  andThen [.clEnqueueNDRangeKernel global_ws local_ws] [] <|
  if env.ndRangeKernel ≠ CL_SUCCESS then
    stop ["something went wrong... " ++ fmt_d env.ndRangeKernel ++ " "] (-1)
  else
  andThen [.clFinish] [] <|
  andThen [.clEnqueueReadBuffer true] [] <|
  checkResults ops src_h env.res_h env.expected_d env.got_d (Int.toNat N) 0

/-- Function `main` of `add.c` as compiled: `SIZE` is `12345678`. -/
def main {α : Type} (ops : FloatOps α) (env : Env α) : Run := mainWith ops SIZE env

end ArraySum

/-! ## Preconditions and sample environments -/

namespace OpenCLRouting

/-- Every step whose outcome `main` tests succeeds: device lookup, context, queue, source
load, program creation, build, kernel extraction, both buffers, both argument bindings,
the work-group query, the dispatch and the read-back.  The statuses of
`clEnqueueWriteBuffer` and `clFinish` are not among them: `main` does not test them. -/
def Env.passesChecks {α : Type} (env : Env α) : Prop :=
  env.getDeviceIDs = CL_SUCCESS ∧ env.context ≠ 0 ∧ env.commands ≠ 0 ∧
  env.kernels_cl ≠ none ∧ env.program ≠ 0 ∧ env.buildProgram = CL_SUCCESS ∧
  env.kernel ≠ 0 ∧ env.createKernel = CL_SUCCESS ∧ env.in_buf ≠ 0 ∧ env.out_buf ≠ 0 ∧
  env.setKernelArg0 = CL_SUCCESS ∧ env.setKernelArg1 = CL_SUCCESS ∧
  env.workGroupInfo = CL_SUCCESS ∧ env.ndRangeKernel = CL_SUCCESS ∧
  env.readBuffer = CL_SUCCESS

/-- A device on which every call succeeds; it reports the kernel work-group size `m` and
the read-back delivers `out`. -/
def squareEnv (m : Nat) (out : Nat → Int) : Env Int where
  getDeviceIDs := 0
  name := "Sample GPU"
  vendor := "Sample"
  max_workgroup_size := 1024
  max_workitem_size := 1024
  context := 1
  commands := 2
  kernels_cl := some "__kernel void square(__global float* in, __global float* out);"
  program := 3
  buildProgram := 0
  buildLog := ""
  kernel := 4
  createKernel := 0
  in_buf := 5
  out_buf := 6
  writeBuffer := 0
  setKernelArg0 := 0
  setKernelArg1 := 0
  workGroupInfo := 0
  workGroupSize := m
  ndRangeKernel := 0
  finish := 0
  readBuffer := 0
  time_spent := "0.00100"
  out_data := out

end OpenCLRouting

namespace ArraySum

/-- Every step whose outcome `main` tests before its validation loop succeeds: source
load, platform and device lookup, context, queue, program creation, build, kernel
extraction, the three buffers, the four argument bindings and the dispatch.  The statuses
of `clFinish` and `clEnqueueReadBuffer` are not among them: `main` does not test them. -/
def Env.reachesValidation {α : Type} (env : Env α) : Prop :=
  env.kernel_source ≠ none ∧ env.malloc_ok = true ∧
  env.getPlatformIDs = CL_SUCCESS ∧ env.getDeviceIDs = CL_SUCCESS ∧
  env.context ≠ 0 ∧ env.queue ≠ 0 ∧ env.program ≠ 0 ∧ env.buildProgram = CL_SUCCESS ∧
  env.createKernel = CL_SUCCESS ∧ env.createBuffer1 = CL_SUCCESS ∧
  env.createBuffer2 = CL_SUCCESS ∧ env.createBuffer3 = CL_SUCCESS ∧
  env.setKernelArg0 = CL_SUCCESS ∧ env.setKernelArg1 = CL_SUCCESS ∧
  env.setKernelArg2 = CL_SUCCESS ∧ env.setKernelArg3 = CL_SUCCESS ∧
  env.ndRangeKernel = CL_SUCCESS

/-- A device on which every call succeeds; its largest work-group has `m` items and the
host array `res_h` holds `res` when it is validated.  A mismatch message would show `0`
and `82` for its two undefined conversions. -/
def addEnv (m : Nat) (res : Nat → Int) : Env Int where
  kernel_source := some "__kernel void vector_add_gpu();"
  malloc_ok := true
  getPlatformIDs := 0
  getDeviceIDs := 0
  max_workgroup_size := m
  context := 1
  queue := 2
  program := 3
  buildProgram := 0
  buildLog := ""
  createKernel := 0
  createBuffer1 := 0
  createBuffer2 := 0
  createBuffer3 := 0
  setKernelArg0 := 0
  setKernelArg1 := 0
  setKernelArg2 := 0
  setKernelArg3 := 0
  ndRangeKernel := 0
  finish := 0
  readBuffer := 0
  res_h := res
  expected_d := "0"
  got_d := "82"

/-- A device whose largest work-group has 128 items: every call succeeds up to the dispatch,
which the device refuses with `CL_INVALID_WORK_GROUP_SIZE` (-54). -/
def smallGroupEnv : Env Int :=
  { addEnv 128 (fun _ => 0) with ndRangeKernel := -54 }

end ArraySum

namespace OpenCLRouting

/-- The device of `squareEnv`, run where the file `kernels.cl` cannot be opened. -/
def noKernelFileEnv : Env Int :=
  { squareEnv 256 (fun _ => 0) with kernels_cl := none }

/-- The device of `squareEnv` with a kernel source that does not compile:
`clBuildProgram` returns `CL_BUILD_PROGRAM_FAILURE` (-11). -/
def brokenKernelEnv : Env Int :=
  { squareEnv 256 (fun _ => 0) with
    buildProgram := -11
    buildLog := "kernels.cl:2:5: error: use of undeclared identifier" }

/-- The device of `squareEnv` on which the transfer of the input fails:
`clEnqueueWriteBuffer` returns `CL_OUT_OF_RESOURCES` (-5), every other call succeeds. -/
def writeFailEnv : Env Int :=
  { squareEnv 256 (fun _ => 0) with writeBuffer := -5 }

end OpenCLRouting

namespace ArraySum

/-- The device of `addEnv`, run where the kernel source file cannot be opened. -/
def missingSourceEnv : Env Int :=
  { addEnv 1024 (fun _ => 0) with kernel_source := none }

/-- The device of `addEnv` with a kernel source that does not compile:
`clBuildProgram` returns `CL_BUILD_PROGRAM_FAILURE` (-11). -/
def buildFailEnv : Env Int :=
  { addEnv 1024 (fun _ => 0) with
    buildProgram := -11
    buildLog := "add.cu:3:5: error: use of undeclared identifier" }

end ArraySum

/-! ## Vocabulary of the theorems -/

/-- Whether every call of `t` that satisfies `q` comes after a call that satisfies `p`;
`seen` tells whether such a call was met before `t`. -/
def precededBy (p q : Call → Bool) (seen : Bool) : List Call → Bool
  | [] => true
  | x :: xs => (!q x || seen) && precededBy p q (seen || p x) xs

namespace OpenCLRouting

/-- The calls of a run of `main` in which every check passes. -/
def squareCalls (N m : Nat) : List Call :=
  [.clGetDeviceIDs, .clGetDeviceInfo, .clGetDeviceInfo, .clGetDeviceInfo, .clGetDeviceInfo,
    .clCreateContext, .clCreateCommandQueue, .clCreateProgramWithSource, .clBuildProgram,
    .clCreateKernel, .clCreateBuffer, .clCreateBuffer, .clEnqueueWriteBuffer true,
    .clSetKernelArg 0, .clSetKernelArg 1, .clGetKernelWorkGroupInfo,
    .clEnqueueNDRangeKernel N (clampLocal N m), .clFinish, .clEnqueueReadBuffer true,
    .clReleaseMemObject, .clReleaseMemObject, .clReleaseProgram, .clReleaseKernel,
    .clReleaseCommandQueue, .clReleaseContext]

/-- The two lines that report the work-group size. -/
def sizeLines {α : Type} (N : Nat) (env : Env α) : List String :=
  ["Max local work group size is " ++ fmt_zd env.workGroupSize,
    "Using work group size of " ++ fmt_zd (clampLocal N env.workGroupSize)]

end OpenCLRouting

namespace ArraySum

/-- The calls of a run of `main` that reaches the validation loop. -/
def addCalls (N : Int) : List Call :=
  [.clGetPlatformIDs, .clGetDeviceIDs, .clCreateContext, .clCreateCommandQueue,
    .clCreateProgramWithSource, .clBuildProgram, .clCreateKernel, .clCreateBuffer,
    .clCreateBuffer, .clCreateBuffer, .clSetKernelArg 0, .clSetKernelArg 1,
    .clSetKernelArg 2, .clSetKernelArg 3,
    .clEnqueueNDRangeKernel (Int.toNat (multiple 256 N % 18446744073709551616)) 256,
    .clFinish, .clEnqueueReadBuffer true]

/-- The value `err` holds after the four `clSetKernelArg` calls. -/
def argStatus {α : Type} (env : Env α) : Int :=
  Int.lor (Int.lor (Int.lor env.setKernelArg0 env.setKernelArg1) env.setKernelArg2)
    env.setKernelArg3

end ArraySum

/-! ## Rounding the global size (`multiple`) -/

theorem wrap32_of_range (x : Int) (h0 : 0 ≤ x) (h1 : x ≤ INT_MAX) : wrap32 x = x := by
  unfold wrap32
  unfold INT_MAX at h1
  omega

namespace ArraySum

/-- On the inputs of the claim `multiple` is the mathematical round-up. -/
theorem multiple_eq (base res : Int) (hb : 0 < base) (hr : 0 ≤ res)
    (h : res + base - 1 ≤ INT_MAX) :
    multiple base res = if res % base = 0 then res else res - res % base + base := by
  have hdm : base * (res / base) + res % base = res := Int.ediv_add_emod res base
  have hm0 : 0 ≤ res % base := Int.emod_nonneg _ (ne_of_gt hb)
  have hm1 : res % base < base := Int.emod_lt_of_pos _ hb
  have hq0 : 0 ≤ res / base := Int.ediv_nonneg hr (le_of_lt hb)
  have hp0 : 0 ≤ base * (res / base) := mul_nonneg (le_of_lt hb) hq0
  have hq1 : res / base ≤ base * (res / base) := by nlinarith
  unfold multiple
  simp only [Int.tdiv_eq_ediv hr (le_of_lt hb), Int.tmod_eq_emod hr (le_of_lt hb)]
  by_cases hz : res % base = 0
  · have hng : ¬ (res % base > 0) := by omega
    rw [if_neg hng, if_pos hz, wrap32_of_range _ (by nlinarith) (by nlinarith)]
    nlinarith
  · have hpos : res % base > 0 := by omega
    have e1 : wrap32 (res / base + 1) = res / base + 1 :=
      wrap32_of_range _ (by omega) (by unfold INT_MAX at *; omega)
    have e2 : (res / base + 1) * base = base * (res / base) + base := by ring
    rw [if_pos hpos, if_neg hz, e1, e2,
      wrap32_of_range _ (by omega) (by unfold INT_MAX at *; omega)]
    omega

/-- C1: for `base > 0`, `res ≥ 0` and `res + base - 1 ≤ INT_MAX`, `multiple base res` is
the least multiple of `base` that is at least `res`: it is divisible by `base`, lies in
`[res, res + base)`, is below every other such multiple, and equals `res` exactly when
`base` divides `res`; `multiple 4 10` is `12` and the compiled-in launch
`multiple 256 SIZE` is `12345856`. -/
theorem C1_multiple_least_multiple (base res : Int) (hb : 0 < base) (hr : 0 ≤ res)
    (h : res + base - 1 ≤ INT_MAX) :
    Int.tmod (multiple base res) base = 0 ∧
    res ≤ multiple base res ∧ multiple base res < res + base ∧
    (∀ k : Int, res ≤ k → Int.tmod k base = 0 → multiple base res ≤ k) ∧
    (multiple base res = res ↔ Int.tmod res base = 0) ∧
    (0 ≤ multiple base res - res ∧ multiple base res - res < base) ∧
    multiple 4 10 = 12 ∧ multiple 4 10 - 10 = 2 ∧ multiple 256 SIZE = 12345856 := by
  have hdm : base * (res / base) + res % base = res := Int.ediv_add_emod res base
  have hm0 : 0 ≤ res % base := Int.emod_nonneg _ (ne_of_gt hb)
  have hm1 : res % base < base := Int.emod_lt_of_pos _ hb
  have hb0 : (0 : Int) ≤ base := le_of_lt hb
  have hE := multiple_eq base res hb hr h
  have hr0 : 0 ≤ multiple base res := by
    rw [hE]; split_ifs <;> omega
  have hdiv : multiple base res % base = 0 := by
    rw [hE]
    split_ifs with hz
    · exact hz
    · have e : res - res % base + base = base * (res / base + 1) := by
        rw [mul_add, mul_one]; omega
      rw [e]
      exact Int.mul_emod_right _ _
  refine ⟨?_, ?_, ?_, ?_, ?_, ?_, by decide, by decide, by decide⟩
  · rw [Int.tmod_eq_emod hr0 hb0]; exact hdiv
  · rw [hE]; split_ifs <;> omega
  · rw [hE]; split_ifs <;> omega
  · intro k hk hkm
    have hk0 : 0 ≤ k := le_trans hr hk
    rw [Int.tmod_eq_emod hk0 hb0] at hkm
    have hkd : base * (k / base) + k % base = k := Int.ediv_add_emod k base
    rw [hE]
    split_ifs with hz
    · exact hk
    · have hlt : base * (res / base) < base * (k / base) := by omega
      have hq : res / base < k / base := lt_of_mul_lt_mul_left hlt hb0
      have hq1 : base * (res / base + 1) ≤ base * (k / base) :=
        mul_le_mul_of_nonneg_left (by omega) hb0
      rw [mul_add, mul_one] at hq1
      omega
  · rw [Int.tmod_eq_emod hr hb0, hE]
    split_ifs with hz
    · simp [hz]
    · constructor
      · intro e; omega
      · intro e; exact absurd e hz
  · rw [hE]; split_ifs <;> omega

/-- C1 at `base = 4`, `res = 10`. -/
theorem C1_multiple_least_multiple_witness :
    (0 : Int) < 4 ∧ (0 : Int) ≤ 10 ∧ (10 : Int) + 4 - 1 ≤ INT_MAX ∧
    Int.tmod (multiple 4 10) 4 = 0 ∧ (10 : Int) ≤ multiple 4 10 ∧ multiple 4 10 < 10 + 4 :=
  have h := C1_multiple_least_multiple 4 10 (by decide) (by decide) (by decide)
  ⟨by decide, by decide, by decide, h.1, h.2.1, h.2.2.1⟩

end ArraySum

/-! ## The accumulated status `err |= ...` -/

theorem nat_lor_eq_zero (m n : Nat) : m ||| n = 0 ↔ m = 0 ∧ n = 0 := by
  constructor
  · intro h
    have hb : ∀ i, (m ||| n).testBit i = false := by
      intro i; rw [h]; exact Nat.zero_testBit i
    constructor
    · apply Nat.eq_of_testBit_eq
      intro i
      have := hb i
      rw [Nat.testBit_or, Bool.or_eq_false_iff] at this
      rw [this.1, Nat.zero_testBit]
    · apply Nat.eq_of_testBit_eq
      intro i
      have := hb i
      rw [Nat.testBit_or, Bool.or_eq_false_iff] at this
      rw [this.2, Nat.zero_testBit]
  · rintro ⟨rfl, rfl⟩
    rfl

theorem int_lor_eq_zero (a b : Int) : Int.lor a b = 0 ↔ a = 0 ∧ b = 0 := by
  cases a with
  | ofNat m =>
    cases b with
    | ofNat n =>
      show ((m ||| n : Nat) : Int) = 0 ↔ _
      rw [Int.natCast_eq_zero, nat_lor_eq_zero]
      simp
    | negSucc n =>
      show Int.negSucc _ = 0 ↔ _
      simp
  | negSucc m =>
    cases b with
    | ofNat n =>
      show Int.negSucc _ = 0 ↔ _
      simp
    | negSucc n =>
      show Int.negSucc _ = 0 ↔ _
      simp

/-! ## Projections of the run combinators -/

theorem andThen_trace (calls : List Call) (lines : List String) (rest : Run) :
    (andThen calls lines rest).trace = calls ++ rest.trace := rfl

theorem andThen_out (calls : List Call) (lines : List String) (rest : Run) :
    (andThen calls lines rest).out = lines ++ rest.out := rfl

theorem andThen_exitStatus (calls : List Call) (lines : List String) (rest : Run) :
    (andThen calls lines rest).exitStatus = rest.exitStatus := rfl

theorem stop_out (lines : List String) (code : Int) : (stop lines code).out = lines := rfl

theorem stop_exitStatus (lines : List String) (code : Int) :
    (stop lines code).exitStatus = code % 256 := rfl

/-! ## Shape of the runs of `main.c` -/

namespace OpenCLRouting

theorem validate_out {α : Type} (ops : FloatOps α) (N : Nat) (in_data out_data : Nat → α) :
    (validate ops N in_data out_data).out =
      [summaryLine (countCorrect ops in_data out_data N 0 0) N] := rfl

theorem square_cases {α : Type} (ops : FloatOps α) (N : Nat) (env : Env α) :
    (env.getDeviceIDs ≠ CL_SUCCESS ∧ mainWith ops N env =
      ⟨(squareCalls N env.workGroupSize).take 1,
        ["Error: Failed to locate a compute device!"], EXIT_FAILURE⟩) ∨
    (env.getDeviceIDs = CL_SUCCESS ∧
    ((env.context = 0 ∧ mainWith ops N env =
      ⟨(squareCalls N env.workGroupSize).take 6, [deviceInfoLine env], EXIT_FAILURE⟩) ∨
    (env.context ≠ 0 ∧
    ((env.commands = 0 ∧ mainWith ops N env =
      ⟨(squareCalls N env.workGroupSize).take 7, [deviceInfoLine env], EXIT_FAILURE⟩) ∨
    (env.commands ≠ 0 ∧
    ((env.kernels_cl = none ∧ mainWith ops N env =
      ⟨(squareCalls N env.workGroupSize).take 7,
        [deviceInfoLine env, "Error: Failed to load kernel file"], EXIT_FAILURE⟩) ∨
    (env.kernels_cl ≠ none ∧
    ((env.program = 0 ∧ mainWith ops N env =
      ⟨(squareCalls N env.workGroupSize).take 8,
        [deviceInfoLine env, "Error: Failed to create compute program!"], EXIT_FAILURE⟩) ∨
    (env.program ≠ 0 ∧
    ((env.buildProgram ≠ CL_SUCCESS ∧ mainWith ops N env =
      ⟨(squareCalls N env.workGroupSize).take 9 ++ [.clGetProgramBuildInfo],
        [deviceInfoLine env, "Error: Failed to build program executable!", env.buildLog],
        1⟩) ∨
    (env.buildProgram = CL_SUCCESS ∧
    (((env.kernel = 0 ∨ env.createKernel ≠ CL_SUCCESS) ∧ mainWith ops N env =
      ⟨(squareCalls N env.workGroupSize).take 10,
        [deviceInfoLine env, "Error: Failed to create compute kernel!"], 1⟩) ∨
    ((env.kernel ≠ 0 ∧ env.createKernel = CL_SUCCESS) ∧
    (((env.in_buf = 0 ∨ env.out_buf = 0) ∧ mainWith ops N env =
      ⟨(squareCalls N env.workGroupSize).take 12,
        [deviceInfoLine env, "Error: failed to allocate input output buffer on device"],
        EXIT_FAILURE⟩) ∨
    ((env.in_buf ≠ 0 ∧ env.out_buf ≠ 0) ∧
    ((Int.lor env.setKernelArg0 env.setKernelArg1 ≠ CL_SUCCESS ∧ mainWith ops N env =
      ⟨(squareCalls N env.workGroupSize).take 15,
        [deviceInfoLine env, "Error: Failed to set kernel arguments! " ++
          fmt_d (Int.lor env.setKernelArg0 env.setKernelArg1)], 1⟩) ∨
    (Int.lor env.setKernelArg0 env.setKernelArg1 = CL_SUCCESS ∧
    ((env.workGroupInfo ≠ CL_SUCCESS ∧ mainWith ops N env =
      ⟨(squareCalls N env.workGroupSize).take 16,
        [deviceInfoLine env, "Error: Failed to retrieve kernel work group info! " ++
          fmt_d env.workGroupInfo], 1⟩) ∨
    (env.workGroupInfo = CL_SUCCESS ∧
    ((env.ndRangeKernel ≠ 0 ∧ mainWith ops N env =
      ⟨(squareCalls N env.workGroupSize).take 17,
        deviceInfoLine env :: sizeLines N env ++ ["Error: Failed to execute kernel!"],
        EXIT_FAILURE⟩) ∨
    (env.ndRangeKernel = 0 ∧
    ((env.readBuffer ≠ CL_SUCCESS ∧ mainWith ops N env =
      ⟨(squareCalls N env.workGroupSize).take 19,
        deviceInfoLine env :: sizeLines N env ++
          ["Spent " ++ env.time_spent ++ " seconds executing",
            "Error: Failed to read output array! " ++ fmt_d env.readBuffer], 1⟩) ∨
    (env.readBuffer = CL_SUCCESS ∧ mainWith ops N env =
      ⟨squareCalls N env.workGroupSize,
        deviceInfoLine env :: sizeLines N env ++
          ["Spent " ++ env.time_spent ++ " seconds executing",
            summaryLine (countCorrect ops (fun i => ops.ofInt i) env.out_data N 0 0) N],
        0⟩))))))))))))))))))))))) := by
  by_cases h1 : env.getDeviceIDs ≠ CL_SUCCESS
  · exact Or.inl ⟨h1, by rw [mainWith, if_pos h1]; rfl⟩
  refine Or.inr ⟨not_not.mp h1, ?_⟩
  by_cases h2 : env.context = 0
  · exact Or.inl ⟨h2, by rw [mainWith, if_neg h1, if_pos h2]; rfl⟩
  refine Or.inr ⟨h2, ?_⟩
  by_cases h3 : env.commands = 0
  · exact Or.inl ⟨h3, by rw [mainWith, if_neg h1, if_neg h2, if_pos h3]; rfl⟩
  refine Or.inr ⟨h3, ?_⟩
  cases h4 : env.kernels_cl with
  | none => exact Or.inl ⟨rfl, by rw [mainWith, if_neg h1, if_neg h2, if_neg h3, h4]; rfl⟩
  | some text =>
  refine Or.inr ⟨by simp, ?_⟩
  by_cases h5 : env.program = 0
  · exact Or.inl ⟨h5, by
      rw [mainWith, if_neg h1, if_neg h2, if_neg h3, h4, if_pos h5]; rfl⟩
  refine Or.inr ⟨h5, ?_⟩
  by_cases h6 : env.buildProgram ≠ CL_SUCCESS
  · exact Or.inl ⟨h6, by
      rw [mainWith, if_neg h1, if_neg h2, if_neg h3, h4, if_neg h5, if_pos h6]; rfl⟩
  refine Or.inr ⟨not_not.mp h6, ?_⟩
  by_cases h7 : env.kernel = 0 ∨ env.createKernel ≠ CL_SUCCESS
  · exact Or.inl ⟨h7, by
      rw [mainWith, if_neg h1, if_neg h2, if_neg h3, h4, if_neg h5, if_neg h6, if_pos h7]
      rfl⟩
  refine Or.inr ⟨⟨fun h => h7 (Or.inl h), not_not.mp fun h => h7 (Or.inr h)⟩, ?_⟩
  by_cases h8 : env.in_buf = 0 ∨ env.out_buf = 0
  · exact Or.inl ⟨h8, by
      rw [mainWith, if_neg h1, if_neg h2, if_neg h3, h4, if_neg h5, if_neg h6, if_neg h7]
      dsimp only
      rw [if_pos h8]
      rfl⟩
  refine Or.inr ⟨⟨fun h => h8 (Or.inl h), fun h => h8 (Or.inr h)⟩, ?_⟩
  by_cases h9 : Int.lor env.setKernelArg0 env.setKernelArg1 ≠ CL_SUCCESS
  · exact Or.inl ⟨h9, by
      rw [mainWith, if_neg h1, if_neg h2, if_neg h3, h4, if_neg h5, if_neg h6, if_neg h7]
      dsimp only
      rw [if_neg h8, if_pos h9]
      rfl⟩
  refine Or.inr ⟨not_not.mp h9, ?_⟩
  by_cases h10 : env.workGroupInfo ≠ CL_SUCCESS
  · exact Or.inl ⟨h10, by
      rw [mainWith, if_neg h1, if_neg h2, if_neg h3, h4, if_neg h5, if_neg h6, if_neg h7]
      dsimp only
      rw [if_neg h8, if_neg h9, if_pos h10]
      rfl⟩
  refine Or.inr ⟨not_not.mp h10, ?_⟩
  by_cases h11 : env.ndRangeKernel ≠ 0
  · exact Or.inl ⟨h11, by
      rw [mainWith, if_neg h1, if_neg h2, if_neg h3, h4, if_neg h5, if_neg h6, if_neg h7]
      dsimp only
      rw [if_neg h8, if_neg h9, if_neg h10, if_pos h11]
      rfl⟩
  refine Or.inr ⟨not_not.mp h11, ?_⟩
  by_cases h12 : env.readBuffer ≠ CL_SUCCESS
  · exact Or.inl ⟨h12, by
      rw [mainWith, if_neg h1, if_neg h2, if_neg h3, h4, if_neg h5, if_neg h6, if_neg h7]
      dsimp only
      rw [if_neg h8, if_neg h9, if_neg h10, if_neg h11, if_pos h12]
      rfl⟩
  exact Or.inr ⟨not_not.mp h12, by
    rw [mainWith, if_neg h1, if_neg h2, if_neg h3, h4, if_neg h5, if_neg h6, if_neg h7]
    dsimp only
    rw [if_neg h8, if_neg h9, if_neg h10, if_neg h11, if_neg h12]
    rfl⟩

end OpenCLRouting

/-! ## Shape of the runs of `add.c` -/

namespace ArraySum

theorem add_cases {α : Type} (ops : FloatOps α) (N : Int) (env : Env α) :
    (env.kernel_source = none ∧ mainWith ops N env = ⟨[], ["bad file handler"], -1⟩) ∨
    (env.kernel_source ≠ none ∧
    ((env.malloc_ok = false ∧ mainWith ops N env = ⟨[], ["insufficient memory"], -1⟩) ∨
    (env.malloc_ok = true ∧
    ((env.getPlatformIDs ≠ CL_SUCCESS ∧ mainWith ops N env =
      ⟨(addCalls N).take 1, ["couldn't get platform id"], -1⟩) ∨
    (env.getPlatformIDs = CL_SUCCESS ∧
    ((env.getDeviceIDs ≠ CL_SUCCESS ∧ mainWith ops N env =
      ⟨(addCalls N).take 2, ["Error getting device ids " ++ fmt_d env.getDeviceIDs], -1⟩) ∨
    (env.getDeviceIDs = CL_SUCCESS ∧
    ((env.context = 0 ∧ mainWith ops N env =
      ⟨(addCalls N).take 3, ["Error creating compute context"], -1⟩) ∨
    (env.context ≠ 0 ∧
    ((env.queue = 0 ∧ mainWith ops N env =
      ⟨(addCalls N).take 4, ["Error creating command queue"], -1⟩) ∨
    (env.queue ≠ 0 ∧
    ((env.program = 0 ∧ mainWith ops N env =
      ⟨(addCalls N).take 5, ["Error creating program"], -1⟩) ∨
    (env.program ≠ 0 ∧
    ((env.buildProgram ≠ CL_SUCCESS ∧ mainWith ops N env =
      ⟨(addCalls N).take 6, ["Error building program"], -1⟩) ∨
    (env.buildProgram = CL_SUCCESS ∧
    ((env.createKernel ≠ CL_SUCCESS ∧ mainWith ops N env =
      ⟨(addCalls N).take 7, ["Error creating kernel"], -1⟩) ∨
    (env.createKernel = CL_SUCCESS ∧
    ((env.createBuffer1 ≠ CL_SUCCESS ∧ mainWith ops N env =
      ⟨(addCalls N).take 8, ["Error creating memory 1"], -1⟩) ∨
    (env.createBuffer1 = CL_SUCCESS ∧
    ((env.createBuffer2 ≠ CL_SUCCESS ∧ mainWith ops N env =
      ⟨(addCalls N).take 9, ["Error creating memory 2"], -1⟩) ∨
    (env.createBuffer2 = CL_SUCCESS ∧
    ((env.createBuffer3 ≠ CL_SUCCESS ∧ mainWith ops N env =
      ⟨(addCalls N).take 10, ["Error creating memory 3"], -1⟩) ∨
    (env.createBuffer3 = CL_SUCCESS ∧
    ((argStatus env ≠ CL_SUCCESS ∧ mainWith ops N env =
      ⟨(addCalls N).take 14, ["error setting kernel paramaters..."], -1⟩) ∨
    (argStatus env = CL_SUCCESS ∧
    ((env.ndRangeKernel ≠ CL_SUCCESS ∧ mainWith ops N env =
      ⟨(addCalls N).take 15,
        ["something went wrong... " ++ fmt_d env.ndRangeKernel ++ " "], -1⟩) ∨
    (env.ndRangeKernel = CL_SUCCESS ∧ mainWith ops N env =
      andThen (addCalls N) []
        (checkResults ops (fun i => ops.ofInt i) env.res_h env.expected_d env.got_d
          (Int.toNat N) 0)
      ))))))))))))))))))))))))))) := by
  cases h01 : env.kernel_source with
  | none =>
    have hs : get_k_source env = .error (stop ["bad file handler"] (-1)) := by
      rw [get_k_source, h01]
    exact Or.inl ⟨rfl, by rw [mainWith, hs]; rfl⟩
  | some text =>
  refine Or.inr ⟨by simp, ?_⟩
  by_cases h02 : env.malloc_ok = false
  · have hs : get_k_source env = .error (stop ["insufficient memory"] (-1)) := by
      rw [get_k_source, h01]; dsimp only; rw [if_pos h02]
    exact Or.inl ⟨h02, by rw [mainWith, hs]; rfl⟩
  have hs : get_k_source env = .ok text := by
    rw [get_k_source, h01]; dsimp only; rw [if_neg h02]
  refine Or.inr ⟨by simpa using h02, ?_⟩
  by_cases h1 : env.getPlatformIDs ≠ CL_SUCCESS
  · exact Or.inl ⟨h1, by rw [mainWith, hs]; dsimp only; rw [if_pos h1]; rfl⟩
  refine Or.inr ⟨not_not.mp h1, ?_⟩
  by_cases h2 : env.getDeviceIDs ≠ CL_SUCCESS
  · exact Or.inl ⟨h2, by rw [mainWith, hs]; dsimp only; rw [if_neg h1, if_pos h2]; rfl⟩
  refine Or.inr ⟨not_not.mp h2, ?_⟩
  by_cases h3 : env.context = 0
  · exact Or.inl ⟨h3, by
      rw [mainWith, hs]; dsimp only; rw [if_neg h1, if_neg h2, if_pos h3]; rfl⟩
  refine Or.inr ⟨h3, ?_⟩
  by_cases h4 : env.queue = 0
  · exact Or.inl ⟨h4, by
      rw [mainWith, hs]; dsimp only; rw [if_neg h1, if_neg h2, if_neg h3, if_pos h4]; rfl⟩
  refine Or.inr ⟨h4, ?_⟩
  by_cases h5 : env.program = 0
  · exact Or.inl ⟨h5, by
      rw [mainWith, hs]; dsimp only
      rw [if_neg h1, if_neg h2, if_neg h3, if_neg h4, if_pos h5]; rfl⟩
  refine Or.inr ⟨h5, ?_⟩
  by_cases h6 : env.buildProgram ≠ CL_SUCCESS
  · exact Or.inl ⟨h6, by
      rw [mainWith, hs]; dsimp only
      rw [if_neg h1, if_neg h2, if_neg h3, if_neg h4, if_neg h5, if_pos h6]; rfl⟩
  refine Or.inr ⟨not_not.mp h6, ?_⟩
  by_cases h7 : env.createKernel ≠ CL_SUCCESS
  · exact Or.inl ⟨h7, by
      rw [mainWith, hs]; dsimp only
      rw [if_neg h1, if_neg h2, if_neg h3, if_neg h4, if_neg h5, if_neg h6, if_pos h7]; rfl⟩
  refine Or.inr ⟨not_not.mp h7, ?_⟩
  by_cases h8 : env.createBuffer1 ≠ CL_SUCCESS
  · exact Or.inl ⟨h8, by
      rw [mainWith, hs]; dsimp only
      rw [if_neg h1, if_neg h2, if_neg h3, if_neg h4, if_neg h5, if_neg h6, if_neg h7,
        if_pos h8]
      rfl⟩
  refine Or.inr ⟨not_not.mp h8, ?_⟩
  by_cases h9 : env.createBuffer2 ≠ CL_SUCCESS
  · exact Or.inl ⟨h9, by
      rw [mainWith, hs]; dsimp only
      rw [if_neg h1, if_neg h2, if_neg h3, if_neg h4, if_neg h5, if_neg h6, if_neg h7,
        if_neg h8, if_pos h9]
      rfl⟩
  refine Or.inr ⟨not_not.mp h9, ?_⟩
  by_cases h10 : env.createBuffer3 ≠ CL_SUCCESS
  · exact Or.inl ⟨h10, by
      rw [mainWith, hs]; dsimp only
      rw [if_neg h1, if_neg h2, if_neg h3, if_neg h4, if_neg h5, if_neg h6, if_neg h7,
        if_neg h8, if_neg h9, if_pos h10]
      rfl⟩
  refine Or.inr ⟨not_not.mp h10, ?_⟩
  by_cases h11 : argStatus env ≠ CL_SUCCESS
  · exact Or.inl ⟨h11, by
      rw [mainWith, hs]; dsimp only
      rw [if_neg h1, if_neg h2, if_neg h3, if_neg h4, if_neg h5, if_neg h6, if_neg h7,
        if_neg h8, if_neg h9, if_neg h10]
      unfold argStatus at h11
      rw [if_pos h11]
      rfl⟩
  refine Or.inr ⟨not_not.mp h11, ?_⟩
  unfold argStatus at h11
  by_cases h12 : env.ndRangeKernel ≠ CL_SUCCESS
  · exact Or.inl ⟨h12, by
      rw [mainWith, hs]; dsimp only
      rw [if_neg h1, if_neg h2, if_neg h3, if_neg h4, if_neg h5, if_neg h6, if_neg h7,
        if_neg h8, if_neg h9, if_neg h10, if_neg h11, if_pos h12]
      rfl⟩
  exact Or.inr ⟨not_not.mp h12, by
    rw [mainWith, hs]; dsimp only
    rw [if_neg h1, if_neg h2, if_neg h3, if_neg h4, if_neg h5, if_neg h6, if_neg h7,
      if_neg h8, if_neg h9, if_neg h10, if_neg h11, if_neg h12]
    rfl⟩

end ArraySum

/-! ## Traces -/

namespace OpenCLRouting

theorem square_trace_cases {α : Type} (ops : FloatOps α) (N : Nat) (env : Env α) :
    (∃ k, (mainWith ops N env).trace = (squareCalls N env.workGroupSize).take k ∧
      (17 < k → env.ndRangeKernel = CL_SUCCESS)) ∨
    (mainWith ops N env).trace =
      (squareCalls N env.workGroupSize).take 9 ++ [.clGetProgramBuildInfo] := by
  rcases square_cases ops N env with
    ⟨-, e⟩ | ⟨-, ⟨-, e⟩ | ⟨-, ⟨-, e⟩ | ⟨-, ⟨-, e⟩ | ⟨-, ⟨-, e⟩ | ⟨-, ⟨-, e⟩ | ⟨-, ⟨-, e⟩ |
    ⟨-, ⟨-, e⟩ | ⟨-, ⟨-, e⟩ | ⟨-, ⟨-, e⟩ | ⟨-, ⟨-, e⟩ | ⟨c, ⟨-, e⟩ | ⟨-, e⟩⟩⟩⟩⟩⟩⟩⟩⟩⟩⟩⟩
  · exact Or.inl ⟨1, by rw [e], by omega⟩
  · exact Or.inl ⟨6, by rw [e], by omega⟩
  · exact Or.inl ⟨7, by rw [e], by omega⟩
  · exact Or.inl ⟨7, by rw [e], by omega⟩
  · exact Or.inl ⟨8, by rw [e], by omega⟩
  · exact Or.inr (by rw [e])
  · exact Or.inl ⟨10, by rw [e], by omega⟩
  · exact Or.inl ⟨12, by rw [e], by omega⟩
  · exact Or.inl ⟨15, by rw [e], by omega⟩
  · exact Or.inl ⟨16, by rw [e], by omega⟩
  · exact Or.inl ⟨17, by rw [e], by omega⟩
  · exact Or.inl ⟨19, by rw [e], fun _ => c⟩
  · exact Or.inl ⟨25, by rw [e]; rfl, fun _ => c⟩

theorem square_dispatch_mem {α : Type} (ops : FloatOps α) (N : Nat) (env : Env α)
    (g l : Nat) (h : Call.clEnqueueNDRangeKernel g l ∈ (mainWith ops N env).trace) :
    g = N ∧ l = clampLocal N env.workGroupSize := by
  have hfull : Call.clEnqueueNDRangeKernel g l ∈ squareCalls N env.workGroupSize →
      g = N ∧ l = clampLocal N env.workGroupSize := by
    intro hm
    simpa [squareCalls] using hm
  rcases square_trace_cases ops N env with ⟨k, e, -⟩ | e
  · rw [e] at h
    exact hfull (List.mem_of_mem_take h)
  · rw [e, List.mem_append] at h
    rcases h with h | h
    · exact hfull (List.mem_of_mem_take h)
    · simp at h

theorem square_passes {α : Type} (ops : FloatOps α) (N : Nat) (env : Env α)
    (h : env.passesChecks) :
    mainWith ops N env =
      ⟨squareCalls N env.workGroupSize,
        deviceInfoLine env :: sizeLines N env ++
          ["Spent " ++ env.time_spent ++ " seconds executing",
            summaryLine (countCorrect ops (fun i => ops.ofInt i) env.out_data N 0 0) N],
        0⟩ := by
  obtain ⟨p1, p2, p3, p4, p5, p6, p7, p8, p9, p10, p11a, p11b, p12, p13, p14⟩ := h
  have p11 : Int.lor env.setKernelArg0 env.setKernelArg1 = CL_SUCCESS :=
    (int_lor_eq_zero _ _).mpr ⟨p11a, p11b⟩
  rcases square_cases ops N env with
    ⟨c, -⟩ | ⟨-, ⟨c, -⟩ | ⟨-, ⟨c, -⟩ | ⟨-, ⟨c, -⟩ | ⟨-, ⟨c, -⟩ | ⟨-, ⟨c, -⟩ | ⟨-, ⟨c, -⟩ |
    ⟨-, ⟨c, -⟩ | ⟨-, ⟨c, -⟩ | ⟨-, ⟨c, -⟩ | ⟨-, ⟨c, -⟩ | ⟨-, ⟨c, -⟩ | ⟨-, e⟩⟩⟩⟩⟩⟩⟩⟩⟩⟩⟩⟩
  · exact absurd p1 c
  · exact absurd c p2
  · exact absurd c p3
  · exact absurd c p4
  · exact absurd c p5
  · exact absurd p6 c
  · rcases c with c | c
    · exact absurd c p7
    · exact absurd p8 c
  · rcases c with c | c
    · exact absurd c p9
    · exact absurd c p10
  · exact absurd p11 c
  · exact absurd p12 c
  · exact absurd p13 c
  · exact absurd p14 c
  · exact e

theorem square_exit_zero_iff {α : Type} (ops : FloatOps α) (N : Nat) (env : Env α) :
    (mainWith ops N env).exitStatus = 0 ↔ env.passesChecks := by
  constructor
  · intro h
    have hneg : (1 : Int) % 256 ≠ 0 := by decide
    rcases square_cases ops N env with
      ⟨-, e⟩ | ⟨c1, ⟨-, e⟩ | ⟨c2, ⟨-, e⟩ | ⟨c3, ⟨-, e⟩ | ⟨c4, ⟨-, e⟩ | ⟨c5, ⟨-, e⟩ |
      ⟨c6, ⟨-, e⟩ | ⟨c7, ⟨-, e⟩ | ⟨c8, ⟨-, e⟩ | ⟨c9, ⟨-, e⟩ | ⟨c10, ⟨-, e⟩ | ⟨c11, ⟨-, e⟩ |
      ⟨c12, -⟩⟩⟩⟩⟩⟩⟩⟩⟩⟩⟩⟩
    iterate 12 (rw [e] at h; exact absurd h hneg)
    have a := (int_lor_eq_zero _ _).mp c9
    exact ⟨c1, c2, c3, c4, c5, c6, c7.1, c7.2, c8.1, c8.2, a.1, a.2, c10, c11, c12⟩
  · intro h
    rw [square_passes ops N env h]
    rfl

theorem squareEnv_passes (m : Nat) (out : Nat → Int) : (squareEnv m out).passesChecks :=
  ⟨rfl, by simp [squareEnv], by simp [squareEnv], by simp [squareEnv], by simp [squareEnv],
    rfl, by simp [squareEnv], rfl, by simp [squareEnv], by simp [squareEnv], rfl, rfl, rfl,
    rfl, rfl⟩

end OpenCLRouting

namespace ArraySum

theorem checkResults_trace {α : Type} (ops : FloatOps α) (src_h res_h : Nat → α)
    (ed gd : String) : ∀ k i, (checkResults ops src_h res_h ed gd k i).trace = [] := by
  intro k
  induction k with
  | zero => intro i; rfl
  | succ k ih =>
    intro i
    rw [checkResults]
    split_ifs
    · rfl
    · exact ih _

theorem add_trace_cases {α : Type} (ops : FloatOps α) (N : Int) (env : Env α) :
    ∃ k, (mainWith ops N env).trace = (addCalls N).take k ∧
      (15 < k → env.ndRangeKernel = CL_SUCCESS) := by
  rcases add_cases ops N env with
    ⟨-, e⟩ | ⟨-, ⟨-, e⟩ | ⟨-, ⟨-, e⟩ | ⟨-, ⟨-, e⟩ | ⟨-, ⟨-, e⟩ | ⟨-, ⟨-, e⟩ | ⟨-, ⟨-, e⟩ |
    ⟨-, ⟨-, e⟩ | ⟨-, ⟨-, e⟩ | ⟨-, ⟨-, e⟩ | ⟨-, ⟨-, e⟩ | ⟨-, ⟨-, e⟩ | ⟨-, ⟨-, e⟩ |
    ⟨-, ⟨-, e⟩ | ⟨c, e⟩⟩⟩⟩⟩⟩⟩⟩⟩⟩⟩⟩⟩⟩
  · exact ⟨0, by rw [e]; rfl, by omega⟩
  · exact ⟨0, by rw [e]; rfl, by omega⟩
  · exact ⟨1, by rw [e], by omega⟩
  · exact ⟨2, by rw [e], by omega⟩
  · exact ⟨3, by rw [e], by omega⟩
  · exact ⟨4, by rw [e], by omega⟩
  · exact ⟨5, by rw [e], by omega⟩
  · exact ⟨6, by rw [e], by omega⟩
  · exact ⟨7, by rw [e], by omega⟩
  · exact ⟨8, by rw [e], by omega⟩
  · exact ⟨9, by rw [e], by omega⟩
  · exact ⟨10, by rw [e], by omega⟩
  · exact ⟨14, by rw [e], by omega⟩
  · exact ⟨15, by rw [e], by omega⟩
  · exact ⟨17, by rw [e, andThen_trace, checkResults_trace]; rfl, fun _ => c⟩

theorem add_dispatch_mem {α : Type} (ops : FloatOps α) (N : Int) (env : Env α)
    (g l : Nat) (h : Call.clEnqueueNDRangeKernel g l ∈ (mainWith ops N env).trace) :
    g = Int.toNat (multiple 256 N % 18446744073709551616) ∧ l = 256 := by
  obtain ⟨k, e, -⟩ := add_trace_cases ops N env
  rw [e] at h
  have hm := List.mem_of_mem_take h
  simpa [addCalls] using hm

theorem add_reaches {α : Type} (ops : FloatOps α) (N : Int) (env : Env α)
    (h : env.reachesValidation) :
    mainWith ops N env = andThen (addCalls N) []
      (checkResults ops (fun i => ops.ofInt i) env.res_h env.expected_d env.got_d
          (Int.toNat N) 0) := by
  obtain ⟨p1, p2, p3, p4, p5, p6, p7, p8, p9, p10, p11, p12, a0, a1, a2, a3, p14⟩ := h
  have p13 : argStatus env = CL_SUCCESS :=
    (int_lor_eq_zero _ _).mpr ⟨(int_lor_eq_zero _ _).mpr
      ⟨(int_lor_eq_zero _ _).mpr ⟨a0, a1⟩, a2⟩, a3⟩
  rcases add_cases ops N env with
    ⟨c, -⟩ | ⟨-, ⟨c, -⟩ | ⟨-, ⟨c, -⟩ | ⟨-, ⟨c, -⟩ | ⟨-, ⟨c, -⟩ | ⟨-, ⟨c, -⟩ | ⟨-, ⟨c, -⟩ |
    ⟨-, ⟨c, -⟩ | ⟨-, ⟨c, -⟩ | ⟨-, ⟨c, -⟩ | ⟨-, ⟨c, -⟩ | ⟨-, ⟨c, -⟩ | ⟨-, ⟨c, -⟩ |
    ⟨-, ⟨c, -⟩ | ⟨-, e⟩⟩⟩⟩⟩⟩⟩⟩⟩⟩⟩⟩⟩⟩
  · exact absurd c p1
  · rw [p2] at c; exact absurd c (by decide)
  · exact absurd p3 c
  · exact absurd p4 c
  · exact absurd c p5
  · exact absurd c p6
  · exact absurd c p7
  · exact absurd p8 c
  · exact absurd p9 c
  · exact absurd p10 c
  · exact absurd p11 c
  · exact absurd p12 c
  · exact absurd p13 c
  · exact absurd p14 c
  · exact e

theorem addEnv_reaches (m : Nat) (res : Nat → Int) : (addEnv m res).reachesValidation :=
  ⟨by simp [addEnv], rfl, rfl, rfl, by simp [addEnv], by simp [addEnv], by simp [addEnv],
    rfl, rfl, rfl, rfl, rfl, rfl, rfl, rfl, rfl, rfl⟩

end ArraySum

/-! ## Launch geometry -/

namespace OpenCLRouting

/-- C6: in every run of the square harness that dispatches the kernel, the local size of
the dispatch is `min m NUM_VALUES`, where `m` is the work-group size the kernel query
reported; so it exceeds neither `m` nor the element count, and it is `m` itself when
`m ≤ NUM_VALUES`. -/
theorem C6_square_local_size {α : Type} (ops : FloatOps α) (env : Env α) (g l : Nat)
    (h : Call.clEnqueueNDRangeKernel g l ∈ (main ops env).trace) :
    l = min env.workGroupSize NUM_VALUES ∧ l ≤ env.workGroupSize ∧ l ≤ NUM_VALUES ∧
    (env.workGroupSize ≤ NUM_VALUES → l = env.workGroupSize) := by
  obtain ⟨-, hl⟩ := square_dispatch_mem ops NUM_VALUES env g l h
  unfold clampLocal at hl
  split_ifs at hl with hc
  · subst hl
    refine ⟨?_, ?_, le_refl _, ?_⟩
    · exact (Nat.min_eq_right (le_of_lt hc)).symm
    · exact le_of_lt hc
    · intro h'; omega
  · subst hl
    have hle : env.workGroupSize ≤ NUM_VALUES := not_lt.mp hc
    exact ⟨(Nat.min_eq_left hle).symm, le_refl _, hle, fun _ => rfl⟩

/-- C6 on a device whose kernel query reports 256: the dispatch is made with local
size 256. -/
theorem C6_square_local_size_witness :
    Call.clEnqueueNDRangeKernel 512000 256 ∈
      (main exactOps (squareEnv 256 (fun i => (i : Int) * i))).trace ∧
    (256 = min (squareEnv 256 (fun i => (i : Int) * i)).workGroupSize NUM_VALUES ∧
      256 ≤ (squareEnv 256 (fun i => (i : Int) * i)).workGroupSize ∧ 256 ≤ NUM_VALUES ∧
      ((squareEnv 256 (fun i => (i : Int) * i)).workGroupSize ≤ NUM_VALUES →
        256 = (squareEnv 256 (fun i => (i : Int) * i)).workGroupSize)) :=
  have hm : Call.clEnqueueNDRangeKernel 512000 256 ∈
      (main exactOps (squareEnv 256 (fun i => (i : Int) * i))).trace := by
    rw [main, square_passes _ _ _ (squareEnv_passes _ _)]
    decide
  ⟨hm, C6_square_local_size exactOps _ 512000 256 hm⟩

/-- C10: the square harness launches `NUM_VALUES = 512000` work-items unrounded; when the
reported work-group size `m` is a power of two with `m ≤ 4096`, the local size of the
dispatch is `min m NUM_VALUES` and divides the global size exactly, and when `m = 8192`
the local size is 8192 and leaves the remainder 4096. -/
theorem C10_square_tiling {α : Type} (ops : FloatOps α) (env : Env α) (g l : Nat)
    (h : Call.clEnqueueNDRangeKernel g l ∈ (main ops env).trace) :
    g = NUM_VALUES ∧ l = min env.workGroupSize NUM_VALUES ∧
    (∀ k : Nat, env.workGroupSize = 2 ^ k → env.workGroupSize ≤ 4096 → g % l = 0) ∧
    (env.workGroupSize = 8192 → l = 8192 ∧ g % l = 4096) := by
  obtain ⟨hg, hl⟩ := square_dispatch_mem ops NUM_VALUES env g l h
  refine ⟨hg, ?_, ?_, ?_⟩
  · rw [hl]; unfold clampLocal; split_ifs with hc
    · exact (Nat.min_eq_right (le_of_lt hc)).symm
    · exact (Nat.min_eq_left (not_lt.mp hc)).symm
  · intro k hk hle
    have hk12 : k < 13 := by
      by_contra hcon
      have : 2 ^ 13 ≤ 2 ^ k := Nat.pow_le_pow_right (by decide) (not_lt.mp hcon)
      omega
    rw [hg, hl, hk]
    interval_cases k <;> decide
  · intro hm
    rw [hg, hl, hm]
    decide

/-- C10 on devices that report 256 (exact tiling) and 8192 (remainder 4096). -/
theorem C10_square_tiling_witness :
    (Call.clEnqueueNDRangeKernel 512000 256 ∈
        (main exactOps (squareEnv 256 (fun _ => 0))).trace ∧
      (squareEnv 256 (fun _ => 0)).workGroupSize = 2 ^ 8 ∧ 512000 % 256 = 0) ∧
    (Call.clEnqueueNDRangeKernel 512000 8192 ∈
        (main exactOps (squareEnv 8192 (fun _ => 0))).trace ∧
      (squareEnv 8192 (fun _ => 0)).workGroupSize = 8192 ∧ 512000 % 8192 = 4096) :=
  have h1 : Call.clEnqueueNDRangeKernel 512000 256 ∈
      (main exactOps (squareEnv 256 (fun _ => 0))).trace := by
    rw [main, square_passes _ _ _ (squareEnv_passes _ _)]
    decide
  have h2 : Call.clEnqueueNDRangeKernel 512000 8192 ∈
      (main exactOps (squareEnv 8192 (fun _ => 0))).trace := by
    rw [main, square_passes _ _ _ (squareEnv_passes _ _)]
    decide
  ⟨⟨h1, rfl, (C10_square_tiling exactOps _ 512000 256 h1).2.2.1 8 rfl (by decide)⟩,
    ⟨h2, rfl, ((C10_square_tiling exactOps _ 512000 8192 h2).2.2.2 rfl).2⟩⟩

end OpenCLRouting

namespace ArraySum

/-- C7, as the code has it: the add harness never asks the device for a work-group limit
(no `clGetKernelWorkGroupInfo` and no `clGetDeviceInfo` call occurs in any run, and no run
depends on the limit `m` of the device) and never clamps: every dispatch is made with the
compiled-in local size 256 and global size `multiple 256 SIZE = 12345856`, so the local
size is within the limit exactly when `256 ≤ m`; the dispatch is made in every run whose
earlier checks pass. -/
theorem C7_add_local_size_fixed {α : Type} (ops : FloatOps α) (env : Env α) :
    (∀ g l, Call.clEnqueueNDRangeKernel g l ∈ (main ops env).trace →
      l = 256 ∧ g = 12345856 ∧
      (l ≤ env.max_workgroup_size ↔ 256 ≤ env.max_workgroup_size)) ∧
    Call.clGetKernelWorkGroupInfo ∉ (main ops env).trace ∧
    Call.clGetDeviceInfo ∉ (main ops env).trace ∧
    (∀ m : Nat, main ops { env with max_workgroup_size := m } = main ops env) ∧
    (env.reachesValidation →
      Call.clEnqueueNDRangeKernel 12345856 256 ∈ (main ops env).trace) := by
  have hnot : ∀ c : Call, c ∉ addCalls SIZE → c ∉ (main ops env).trace := by
    intro c hc hm
    obtain ⟨k, e, -⟩ := add_trace_cases ops SIZE env
    rw [main, e] at hm
    exact hc (List.mem_of_mem_take hm)
  refine ⟨?_, hnot _ (by simp [addCalls]), hnot _ (by simp [addCalls]), fun _ => rfl, ?_⟩
  · intro g l h
    obtain ⟨hg, hl⟩ := add_dispatch_mem ops SIZE env g l h
    refine ⟨hl, ?_, by rw [hl]⟩
    rw [hg]
    decide
  · intro hr
    rw [main, add_reaches ops SIZE env hr, andThen_trace]
    exact List.mem_append_left _ (by decide)

/-- C7, as the code has it, on a device with limit 1024: the dispatch is made with local
size 256 and no query of the limit is in the trace. -/
theorem C7_add_local_size_fixed_witness :
    (addEnv 1024 (fun _ => 0)).reachesValidation ∧
    Call.clEnqueueNDRangeKernel 12345856 256 ∈
      (main exactOps (addEnv 1024 (fun _ => 0))).trace ∧
    ((256 : Nat) = 256 ∧ (12345856 : Nat) = 12345856 ∧
      (256 ≤ (addEnv 1024 (fun _ => 0)).max_workgroup_size ↔
        256 ≤ (addEnv 1024 (fun _ => 0)).max_workgroup_size)) ∧
    Call.clGetKernelWorkGroupInfo ∉ (main exactOps (addEnv 1024 (fun _ => 0))).trace ∧
    Call.clGetDeviceInfo ∉ (main exactOps (addEnv 1024 (fun _ => 0))).trace :=
  have h := C7_add_local_size_fixed exactOps (addEnv 1024 (fun _ => 0))
  have hm := h.2.2.2.2 (addEnv_reaches _ _)
  ⟨addEnv_reaches _ _, hm, h.1 12345856 256 hm, h.2.1, h.2.2.1⟩

/-- C7 fails as stated: on a device whose work-group limit is 128 the add harness still
dispatches with local size 256, which is above the limit. -/
theorem C7_add_local_size_counterexample :
    smallGroupEnv.max_workgroup_size = 128 ∧
    Call.clEnqueueNDRangeKernel 12345856 256 ∈ (main exactOps smallGroupEnv).trace ∧
    ¬ (256 ≤ smallGroupEnv.max_workgroup_size) := by
  refine ⟨rfl, ?_, by decide⟩
  decide

end ArraySum

/-! ## Validation in `main.c` -/

namespace OpenCLRouting

theorem countCorrect_eq {α : Type} (ops : FloatOps α) (in_data out_data : Nat → α) :
    ∀ k i c, c + k < 4294967296 →
      countCorrect ops in_data out_data k i c =
        c + ((List.range k).filter (fun j =>
          ops.eq (out_data (i + j)) (ops.mul (in_data (i + j)) (in_data (i + j))))).length := by
  intro k
  induction k with
  | zero => intro i c _; simp [countCorrect]
  | succ k ih =>
    intro i c h
    have hf : (fun j => ops.eq (out_data (i + 1 + j))
          (ops.mul (in_data (i + 1 + j)) (in_data (i + 1 + j)))) =
        (fun j => ops.eq (out_data (i + j)) (ops.mul (in_data (i + j)) (in_data (i + j)))) ∘
          Nat.succ := by
      funext j
      simp only [Function.comp, Nat.succ_eq_add_one]
      rw [show i + 1 + j = i + (j + 1) by omega]
    rw [countCorrect, List.range_succ_eq_map, List.filter_cons, List.filter_map]
    by_cases hm : ops.eq (out_data i) (ops.mul (in_data i) (in_data i)) = true
    · rw [if_pos hm, ih _ _ (by omega), hf]
      simp only [Nat.add_zero, hm, if_true, List.length_cons, List.length_map]
      omega
    · rw [if_neg hm, ih _ _ (by omega), hf]
      simp only [Nat.add_zero, hm, List.length_map]
      simp

theorem summaryLine_of_le (c N : Nat) (hc : c ≤ N) (hN : (N : Int) ≤ INT_MAX) :
    summaryLine c N = "Computed '" ++ toString c ++ "/" ++ toString N ++ "' correct values!" := by
  unfold summaryLine
  rw [wrap32_of_range _ (Int.ofNat_nonneg c) (le_trans (Int.ofNat_le.mpr hc) hN)]
  rfl

/-- C2: the validation loop of the square harness leaves in `correct` the number of
indices `i < N` with `out[i] == in[i] * in[i]`; so `correct ≤ N`, and `correct = N`
exactly when every element matches.  The one line the validation phase prints is
`Computed 'c/N' correct values!` with `c` that number, and the exit status is 0; in
particular the line reads `N/N` when every element matches.  The same line ends the
output of a whole run of `main` in which every checked call succeeds. -/
theorem C2_square_validation {α : Type} (ops : FloatOps α) (N : Nat)
    (hN : (N : Int) ≤ INT_MAX) (in_data out_data : Nat → α) :
    countCorrect ops in_data out_data N 0 0 =
      ((List.range N).filter (fun i =>
        ops.eq (out_data i) (ops.mul (in_data i) (in_data i)))).length ∧
    countCorrect ops in_data out_data N 0 0 ≤ N ∧
    (countCorrect ops in_data out_data N 0 0 = N ↔
      ∀ i, i < N → ops.eq (out_data i) (ops.mul (in_data i) (in_data i)) = true) ∧
    ((∀ i, i < N → ops.eq (out_data i) (ops.mul (in_data i) (in_data i)) = true) →
      (validate ops N in_data out_data).out =
        ["Computed '" ++ toString N ++ "/" ++ toString N ++ "' correct values!"] ∧
      (validate ops N in_data out_data).exitStatus = 0) ∧
    (∀ env : Env α, env.passesChecks →
      (∀ i, i < N →
        ops.eq (env.out_data i) (ops.mul (ops.ofInt i) (ops.ofInt i)) = true) →
      (mainWith ops N env).out.getLast? =
        some ("Computed '" ++ toString N ++ "/" ++ toString N ++ "' correct values!") ∧
      (mainWith ops N env).exitStatus = 0) ∧
    ((validate ops N in_data out_data).out =
        ["Computed '" ++
          toString ((List.range N).filter (fun i =>
            ops.eq (out_data i) (ops.mul (in_data i) (in_data i)))).length ++
          "/" ++ toString N ++ "' correct values!"] ∧
      (validate ops N in_data out_data).exitStatus = 0) ∧
    (∀ env : Env α, env.passesChecks →
      (mainWith ops N env).out =
        deviceInfoLine env :: sizeLines N env ++
          ["Spent " ++ env.time_spent ++ " seconds executing",
            "Computed '" ++
              toString ((List.range N).filter (fun i =>
                ops.eq (env.out_data i) (ops.mul (ops.ofInt i) (ops.ofInt i)))).length ++
              "/" ++ toString N ++ "' correct values!"] ∧
      (mainWith ops N env).exitStatus = 0) := by
  have hlt : 0 + N < 4294967296 := by unfold INT_MAX at hN; omega
  have key : ∀ (a b : Nat → α),
      countCorrect ops a b N 0 0 =
        ((List.range N).filter (fun i => ops.eq (b i) (ops.mul (a i) (a i)))).length := by
    intro a b
    have h := countCorrect_eq ops a b N 0 0 hlt
    simpa using h
  have hle : ∀ (a b : Nat → α),
      ((List.range N).filter (fun i => ops.eq (b i) (ops.mul (a i) (a i)))).length ≤ N :=
    fun a b => le_trans (List.length_filter_le _ _) (le_of_eq (List.length_range N))
  have full : ∀ (a b : Nat → α),
      (countCorrect ops a b N 0 0 = N ↔
        ∀ i, i < N → ops.eq (b i) (ops.mul (a i) (a i)) = true) := by
    intro a b
    rw [key, ← List.countP_eq_length_filter]
    constructor
    · intro h i hi
      have h2 : List.countP (fun i => ops.eq (b i) (ops.mul (a i) (a i))) (List.range N) =
          (List.range N).length := by rw [h, List.length_range]
      exact (List.countP_eq_length.mp h2) i (List.mem_range.mpr hi)
    · intro h
      have h2 := (List.countP_eq_length (l := List.range N)
        (p := fun i => ops.eq (b i) (ops.mul (a i) (a i)))).mpr
        (fun i hi => h i (List.mem_range.mp hi))
      rw [h2, List.length_range]
  refine ⟨key _ _, ?_, full _ _, ?_, ?_, ?_, ?_⟩
  · rw [key]
    exact hle _ _
  · intro h
    rw [validate_out, (full _ _).mpr h, summaryLine_of_le N N (le_refl N) hN]
    exact ⟨rfl, rfl⟩
  · intro env hp h
    rw [square_passes ops N env hp]
    refine ⟨?_, rfl⟩
    rw [(full _ _).mpr h, summaryLine_of_le N N (le_refl N) hN]
    simp [sizeLines]
  · rw [validate_out, key, summaryLine_of_le _ N (hle _ _) hN]
    exact ⟨rfl, rfl⟩
  · intro env hp
    rw [square_passes ops N env hp, key, summaryLine_of_le _ N (hle _ _) hN]
    exact ⟨rfl, rfl⟩

/-- C2 on `N = 16`, `in = [0..15]`: with `out = [0, 1, 4, .., 225]` the harness reports
`16/16`, with `out[3]` spoilt it reports `15/16`; the exit status is 0 in both runs. -/
theorem C2_square_validation_witness :
    ((16 : Nat) : Int) ≤ INT_MAX ∧
    countCorrect exactOps (fun i => (i : Int)) (fun i => (i : Int) * i) 16 0 0 = 16 ∧
    (validate exactOps 16 (fun i => (i : Int)) (fun i => (i : Int) * i)).out =
      ["Computed '16/16' correct values!"] ∧
    (validate exactOps 16 (fun i => (i : Int)) (fun i => (i : Int) * i)).exitStatus = 0 ∧
    (mainWith exactOps 16 (squareEnv 4 (fun i => (i : Int) * i))).out.getLast? =
      some "Computed '16/16' correct values!" ∧
    (mainWith exactOps 16 (squareEnv 4 (fun i => (i : Int) * i))).exitStatus = 0 ∧
    (validate exactOps 16 (fun i => (i : Int))
      (fun i => if i = 3 then 0 else (i : Int) * i)).out =
        ["Computed '15/16' correct values!"] ∧
    (mainWith exactOps 16 (squareEnv 4 (fun i => if i = 3 then 0 else (i : Int) * i))).out =
      ["Sample: Sample GPU, wg size: 1024, item size: 1024",
        "Max local work group size is 4", "Using work group size of 4",
        "Spent 0.00100 seconds executing", "Computed '15/16' correct values!"] ∧
    (mainWith exactOps 16
      (squareEnv 4 (fun i => if i = 3 then 0 else (i : Int) * i))).exitStatus = 0 :=
  have hall : ∀ i, i < 16 → exactOps.eq (((i : Nat) : Int) * i)
      (exactOps.mul ((i : Nat) : Int) ((i : Nat) : Int)) = true := by
    intro i _
    simp [exactOps]
  have h := C2_square_validation exactOps 16 (by decide) (fun i => (i : Int))
    (fun i => (i : Int) * i)
  have h15 := C2_square_validation exactOps 16 (by decide) (fun i => (i : Int))
    (fun i => if i = 3 then 0 else (i : Int) * i)
  have m15 := h15.2.2.2.2.2.2
    (squareEnv 4 (fun i => if i = 3 then 0 else (i : Int) * i)) (squareEnv_passes _ _)
  ⟨by decide, h.2.2.1.mpr hall, (h.2.2.2.1 hall).1, (h.2.2.2.1 hall).2,
    (h.2.2.2.2.1 (squareEnv 4 (fun i => (i : Int) * i)) (squareEnv_passes _ _) hall).1,
    (h.2.2.2.2.1 (squareEnv 4 (fun i => (i : Int) * i)) (squareEnv_passes _ _) hall).2,
    h15.2.2.2.2.2.1.1.trans (by decide), m15.1.trans (by decide), m15.2⟩

end OpenCLRouting

/-! ## Validation in `add.c` -/

namespace ArraySum

theorem checkResults_ok {α : Type} (ops : FloatOps α) (src_h res_h : Nat → α)
    (ed gd : String) :
    ∀ k i, (∀ j, j < k → ops.eq (res_h (i + j)) (ops.add (src_h (i + j)) (src_h (i + j))) = true) →
      checkResults ops src_h res_h ed gd k i = stop ["everything worked out!"] 0 := by
  intro k
  induction k with
  | zero => intro i _; rfl
  | succ k ih =>
    intro i h
    have h0 := h 0 (Nat.succ_pos k)
    rw [Nat.add_zero] at h0
    rw [checkResults, if_neg (by rw [h0]; decide)]
    apply ih
    intro j hj
    have := h (j + 1) (by omega)
    rwa [show i + (j + 1) = i + 1 + j by omega] at this

theorem checkResults_mismatch {α : Type} (ops : FloatOps α) (src_h res_h : Nat → α)
    (ed gd : String) :
    ∀ d k i, d < k →
      ops.eq (res_h (i + d)) (ops.add (src_h (i + d)) (src_h (i + d))) = false →
      (∀ j, j < d → ops.eq (res_h (i + j)) (ops.add (src_h (i + j)) (src_h (i + j))) = true) →
      checkResults ops src_h res_h ed gd k i = stop [mismatchLine (i + d) ed gd] (-1) := by
  intro d
  induction d with
  | zero =>
    intro k i hk hbad _
    obtain ⟨k, rfl⟩ : ∃ k', k = k' + 1 := ⟨k - 1, by omega⟩
    rw [Nat.add_zero] at hbad
    rw [checkResults, if_pos hbad]
    rfl
  | succ d ih =>
    intro k i hk hbad hgood
    obtain ⟨k, rfl⟩ : ∃ k', k = k' + 1 := ⟨k - 1, by omega⟩
    have h0 := hgood 0 (Nat.succ_pos d)
    rw [Nat.add_zero] at h0
    rw [checkResults, if_neg (by rw [h0]; decide)]
    have e : i + (d + 1) = i + 1 + d := by omega
    rw [e] at hbad ⊢
    apply ih k (i + 1) (by omega) hbad
    intro j hj
    have := hgood (j + 1) (by omega)
    rwa [show i + (j + 1) = i + 1 + j by omega] at this

theorem mismatchLine_eq (i : Nat) (ed gd : String) :
    mismatchLine i ed gd =
      "element " ++ toString i ++ ", expected " ++ ed ++ ", got " ++ gd := rfl

theorem mismatchLine_ne_success (i : Nat) (ed gd : String) :
    mismatchLine i ed gd ≠ "everything worked out!" := by
  intro h
  have h2 := congrArg String.data h
  simp [mismatchLine, String.data_append] at h2

theorem checkResults_at_mismatch {α : Type} (ops : FloatOps α) (n : Nat) (a b : Nat → α)
    (ed gd : String) (i : Nat) (hi : i < n)
    (hb : ops.eq (b i) (ops.add (a i) (a i)) = false)
    (hg : ∀ j, j < i → ops.eq (b j) (ops.add (a j) (a j)) = true) :
    checkResults ops a b ed gd n 0 = stop [mismatchLine i ed gd] (-1) := by
  have h := checkResults_mismatch ops a b ed gd i n 0 hi (by simpa using hb)
    (by intro j hj; simpa using hg j hj)
  simpa using h

theorem checkResults_exit_zero {α : Type} (ops : FloatOps α) (n : Nat) (a b : Nat → α)
    (ed gd : String) (hs : (checkResults ops a b ed gd n 0).exitStatus = 0) :
    ∀ i, i < n → ops.eq (b i) (ops.add (a i) (a i)) = true := by
  by_contra hne
  have hex : ∃ i, i < n ∧ ops.eq (b i) (ops.add (a i) (a i)) = false := by
    by_contra hno
    apply hne
    intro i hi
    by_contra hf
    exact hno ⟨i, hi, by simpa using hf⟩
  classical
  have hmin : ∀ j, j < Nat.find hex → ops.eq (b j) (ops.add (a j) (a j)) = true := by
    intro j hj
    have hnot := Nat.find_min hex hj
    by_contra hf
    exact hnot ⟨lt_trans hj (Nat.find_spec hex).1, by simpa using hf⟩
  have h := checkResults_at_mismatch ops n a b ed gd (Nat.find hex) (Nat.find_spec hex).1
    (Nat.find_spec hex).2 hmin
  rw [h, stop_exitStatus] at hs
  exact absurd hs (by decide)

theorem add_exit_zero_iff {α : Type} (ops : FloatOps α) (N : Int) (env : Env α) :
    (mainWith ops N env).exitStatus = 0 ↔
      env.reachesValidation ∧
      ∀ i, i < Int.toNat N →
        ops.eq (env.res_h i) (ops.add (ops.ofInt i) (ops.ofInt i)) = true := by
  constructor
  · intro h
    have hneg : (-1 : Int) % 256 ≠ 0 := by decide
    rcases add_cases ops N env with
      ⟨-, e⟩ | ⟨c1, ⟨-, e⟩ | ⟨c2, ⟨-, e⟩ | ⟨c3, ⟨-, e⟩ | ⟨c4, ⟨-, e⟩ | ⟨c5, ⟨-, e⟩ |
      ⟨c6, ⟨-, e⟩ | ⟨c7, ⟨-, e⟩ | ⟨c8, ⟨-, e⟩ | ⟨c9, ⟨-, e⟩ | ⟨c10, ⟨-, e⟩ | ⟨c11, ⟨-, e⟩ |
      ⟨c12, ⟨-, e⟩ | ⟨c13, ⟨-, e⟩ | ⟨c14, e⟩⟩⟩⟩⟩⟩⟩⟩⟩⟩⟩⟩⟩⟩
    iterate 14 (rw [e] at h; exact absurd h hneg)
    rw [e, andThen_exitStatus] at h
    have a3 := (int_lor_eq_zero _ _).mp c13
    have a2 := (int_lor_eq_zero _ _).mp a3.1
    have a1 := (int_lor_eq_zero _ _).mp a2.1
    exact ⟨⟨c1, c2, c3, c4, c5, c6, c7, c8, c9, c10, c11, c12, a1.1, a1.2, a2.2, a3.2, c14⟩,
      checkResults_exit_zero ops _ _ _ _ _ h⟩
  · rintro ⟨hr, hall⟩
    rw [add_reaches ops N env hr, andThen_exitStatus,
      checkResults_ok ops _ _ _ _ _ 0 (by intro j hj; simpa using hall j hj)]
    rfl

/-- C9: in the validation loop of the add harness, a mismatch `res[i] != src[i] + src[i]`
at the least such index `i < N` ends the run with the single line
`element <i>, expected <..>, got <..>`, whose first number is that index `i` (the other two
are `float` arguments read under `%d`, so their text is whatever the run produced),
without the success line and with a non-zero exit status; the success line is printed with
exit status 0 exactly when every element matches.  Both hold as well for a whole run of
`main` (with `SIZE` elements) in which every checked call succeeds. -/
theorem C9_add_validation {α : Type} (ops : FloatOps α) (N : Nat) (src res : Nat → α)
    (expected_d got_d : String) :
    (∀ i, i < N → ops.eq (res i) (ops.add (src i) (src i)) = false →
      (∀ j, j < i → ops.eq (res j) (ops.add (src j) (src j)) = true) →
      (checkResults ops src res expected_d got_d N 0).out =
        ["element " ++ toString i ++ ", expected " ++ expected_d ++ ", got " ++ got_d] ∧
      "everything worked out!" ∉ (checkResults ops src res expected_d got_d N 0).out ∧
      (checkResults ops src res expected_d got_d N 0).exitStatus ≠ 0) ∧
    (("everything worked out!" ∈ (checkResults ops src res expected_d got_d N 0).out ∧
        (checkResults ops src res expected_d got_d N 0).exitStatus = 0) ↔
      ∀ i, i < N → ops.eq (res i) (ops.add (src i) (src i)) = true) ∧
    (∀ env : Env α, env.reachesValidation →
      (("everything worked out!" ∈ (main ops env).out ∧ (main ops env).exitStatus = 0) ↔
        ∀ i, i < 12345678 →
          ops.eq (env.res_h i) (ops.add (ops.ofInt i) (ops.ofInt i)) = true)) ∧
    (∀ env : Env α, env.reachesValidation →
      ∀ i, i < 12345678 →
        ops.eq (env.res_h i) (ops.add (ops.ofInt i) (ops.ofInt i)) = false →
        (∀ j, j < i →
          ops.eq (env.res_h j) (ops.add (ops.ofInt j) (ops.ofInt j)) = true) →
        (main ops env).out =
          ["element " ++ toString i ++ ", expected " ++ env.expected_d ++ ", got " ++
            env.got_d] ∧
        "everything worked out!" ∉ (main ops env).out ∧
        (main ops env).exitStatus ≠ 0) := by
  have iff : ∀ (n : Nat) (a b : Nat → α) (ed gd : String),
      (("everything worked out!" ∈ (checkResults ops a b ed gd n 0).out ∧
          (checkResults ops a b ed gd n 0).exitStatus = 0) ↔
        ∀ i, i < n → ops.eq (b i) (ops.add (a i) (a i)) = true) := by
    intro n a b ed gd
    constructor
    · rintro ⟨-, hs⟩
      exact checkResults_exit_zero ops n a b ed gd hs
    · intro h
      rw [checkResults_ok ops a b ed gd n 0 (by intro j hj; simpa using h j hj)]
      exact ⟨List.mem_singleton.mpr rfl, rfl⟩
  have bad : ∀ (n : Nat) (a b : Nat → α) (ed gd : String) (i : Nat), i < n →
      ops.eq (b i) (ops.add (a i) (a i)) = false →
      (∀ j, j < i → ops.eq (b j) (ops.add (a j) (a j)) = true) →
      (checkResults ops a b ed gd n 0).out =
        ["element " ++ toString i ++ ", expected " ++ ed ++ ", got " ++ gd] ∧
      "everything worked out!" ∉ (checkResults ops a b ed gd n 0).out ∧
      (checkResults ops a b ed gd n 0).exitStatus ≠ 0 := by
    intro n a b ed gd i hi hb hg
    rw [checkResults_at_mismatch ops n a b ed gd i hi hb hg]
    refine ⟨by rw [stop_out, mismatchLine_eq], ?_, by rw [stop_exitStatus]; decide⟩
    rw [stop_out, List.mem_singleton]
    exact fun h => mismatchLine_ne_success _ _ _ h.symm
  have e : ∀ env : Env α, env.reachesValidation →
      main ops env = andThen (addCalls SIZE) []
        (checkResults ops (fun i => ops.ofInt i) env.res_h env.expected_d env.got_d
          12345678 0) :=
    fun env hr => add_reaches ops SIZE env hr
  refine ⟨bad N src res expected_d got_d, iff N src res expected_d got_d, ?_, ?_⟩
  · intro env hr
    rw [e env hr, andThen_out, andThen_exitStatus, List.nil_append]
    exact iff 12345678 _ env.res_h _ _
  · intro env hr i hi hb hg
    rw [e env hr, andThen_out, andThen_exitStatus, List.nil_append]
    exact bad 12345678 _ env.res_h _ _ i hi hb hg

/-- C9 on four elements, where the two undefined conversions come out as `0` and `82`:
`res = [0, 2, 5, 6]` stops at index 2 with the line `element 2, expected 0, got 82`, and
`res = [0, 2, 4, 6]` validates. -/
theorem C9_add_validation_witness :
    (checkResults exactOps (fun i => (i : Int))
      (fun i => if i = 2 then 5 else 2 * (i : Int)) "0" "82" 4 0).out =
        ["element 2, expected 0, got 82"] ∧
    (checkResults exactOps (fun i => (i : Int))
      (fun i => if i = 2 then 5 else 2 * (i : Int)) "0" "82" 4 0).exitStatus ≠ 0 ∧
    "everything worked out!" ∈
      (checkResults exactOps (fun i => (i : Int)) (fun i => 2 * (i : Int)) "0" "82" 4 0).out ∧
    (checkResults exactOps (fun i => (i : Int)) (fun i => 2 * (i : Int))
      "0" "82" 4 0).exitStatus = 0 :=
  have hbad := (C9_add_validation exactOps 4 (fun i => (i : Int))
    (fun i => if i = 2 then 5 else 2 * (i : Int)) "0" "82").1 2 (by decide) (by decide)
    (by intro j hj; interval_cases j <;> decide)
  have hgood := (C9_add_validation exactOps 4 (fun i => (i : Int))
    (fun i => 2 * (i : Int)) "0" "82").2.1.mpr
    (by intro i hi; interval_cases i <;> decide)
  ⟨hbad.1, hbad.2.2, hgood.1, hgood.2⟩

end ArraySum

/-! ## Order of the calls -/

theorem precededBy_sound (p q : Call → Bool) :
    ∀ (t : List Call) (seen : Bool), precededBy p q seen t = true →
      ∀ (pre : List Call) (x : Call) (post : List Call), t = pre ++ x :: post →
        q x = true → seen = true ∨ ∃ y, y ∈ pre ∧ p y = true := by
  intro t
  induction t with
  | nil =>
    intro seen _ pre x post h
    exact absurd h (by simp)
  | cons a t ih =>
    intro seen hp pre x post h hq
    rw [precededBy, Bool.and_eq_true] at hp
    cases pre with
    | nil =>
      rw [List.nil_append] at h
      obtain ⟨rfl, -⟩ := List.cons.inj h
      have h1 := hp.1
      rw [hq] at h1
      left
      simpa using h1
    | cons b pre =>
      rw [List.cons_append] at h
      obtain ⟨rfl, ht⟩ := List.cons.inj h
      rcases ih _ hp.2 pre x post ht hq with hs | ⟨y, hy, hpy⟩
      · rw [Bool.or_eq_true] at hs
        rcases hs with hs | hs
        · exact Or.inl hs
        · exact Or.inr ⟨a, List.mem_cons_self _ _, hs⟩
      · exact Or.inr ⟨y, List.mem_cons_of_mem _ hy, hpy⟩

theorem split_of_take_split {l pre post : List Call} {x : Call} {k : Nat}
    (h : l.take k = pre ++ x :: post) : l = pre ++ x :: (post ++ l.drop k) := by
  have e := List.take_append_drop k l
  rw [h] at e
  simpa using e.symm

theorem precededBy_of_take (p q : Call → Bool) (l : List Call)
    (hl : precededBy p q false l = true) (k : Nat) (pre : List Call) (x : Call)
    (post : List Call) (h : l.take k = pre ++ x :: post) (hq : q x = true) :
    ∃ y, y ∈ pre ∧ p y = true := by
  rcases precededBy_sound p q l false hl pre x _ (split_of_take_split h) hq with hs | hs
  · exact absurd hs (by decide)
  · exact hs

namespace OpenCLRouting

theorem square_precededBy {α : Type} (ops : FloatOps α) (N : Nat) (env : Env α)
    (p q : Call → Bool)
    (h1 : precededBy p q false (squareCalls N env.workGroupSize) = true)
    (h2 : precededBy p q false
      ((squareCalls N env.workGroupSize).take 9 ++ [.clGetProgramBuildInfo]) = true)
    (pre : List Call) (x : Call) (post : List Call)
    (h : (mainWith ops N env).trace = pre ++ x :: post) (hq : q x = true) :
    ∃ y, y ∈ pre ∧ p y = true := by
  rcases square_trace_cases ops N env with ⟨k, e, -⟩ | e
  · rw [e] at h
    exact precededBy_of_take p q _ h1 k pre x post h hq
  · rw [e] at h
    rcases precededBy_sound p q _ false h2 pre x post h hq with hs | hs
    · exact absurd hs (by decide)
    · exact hs

theorem square_finish_mem {α : Type} (ops : FloatOps α) (N : Nat) (env : Env α)
    (h : Call.clFinish ∈ (mainWith ops N env).trace) : env.ndRangeKernel = CL_SUCCESS := by
  rcases square_trace_cases ops N env with ⟨k, e, hk⟩ | e
  · apply hk
    by_contra hcon
    rw [e] at h
    have h17 : List.take k (squareCalls N env.workGroupSize) =
        List.take k (List.take 17 (squareCalls N env.workGroupSize)) := by
      rw [List.take_take, Nat.min_eq_left (not_lt.mp hcon)]
    rw [h17] at h
    have := List.mem_of_mem_take h
    simp [squareCalls] at this
  · rw [e] at h
    simp [squareCalls] at h

end OpenCLRouting

namespace ArraySum

theorem add_precededBy {α : Type} (ops : FloatOps α) (N : Int) (env : Env α)
    (p q : Call → Bool) (h1 : precededBy p q false (addCalls N) = true)
    (pre : List Call) (x : Call) (post : List Call)
    (h : (mainWith ops N env).trace = pre ++ x :: post) (hq : q x = true) :
    ∃ y, y ∈ pre ∧ p y = true := by
  obtain ⟨k, e, -⟩ := add_trace_cases ops N env
  rw [e] at h
  exact precededBy_of_take p q _ h1 k pre x post h hq

theorem add_finish_mem {α : Type} (ops : FloatOps α) (N : Int) (env : Env α)
    (h : Call.clFinish ∈ (mainWith ops N env).trace) : env.ndRangeKernel = CL_SUCCESS := by
  obtain ⟨k, e, hk⟩ := add_trace_cases ops N env
  apply hk
  by_contra hcon
  rw [e] at h
  have h15 : List.take k (addCalls N) = List.take k (List.take 15 (addCalls N)) := by
    rw [List.take_take, Nat.min_eq_left (not_lt.mp hcon)]
  rw [h15] at h
  have := List.mem_of_mem_take h
  simp [addCalls] at this

end ArraySum

theorem mem_of_isFinish {pre : List Call} (h : ∃ y, y ∈ pre ∧ y.isFinish = true) :
    Call.clFinish ∈ pre := by
  obtain ⟨y, hy, hp⟩ := h
  cases y <;> first | exact hy | exact absurd hp Bool.false_ne_true

theorem mem_of_isDispatch {pre : List Call} (h : ∃ y, y ∈ pre ∧ y.isDispatch = true) :
    ∃ g l, Call.clEnqueueNDRangeKernel g l ∈ pre := by
  obtain ⟨y, hy, hp⟩ := h
  cases y <;> first | exact ⟨_, _, hy⟩ | exact absurd hp Bool.false_ne_true

theorem mem_of_isBlockingWrite {pre : List Call}
    (h : ∃ y, y ∈ pre ∧ y.isBlockingWrite = true) : Call.clEnqueueWriteBuffer true ∈ pre := by
  obtain ⟨y, hy, hp⟩ := h
  cases y with
  | clEnqueueWriteBuffer b =>
    cases b
    · exact absurd hp Bool.false_ne_true
    · exact hy
  | _ => exact absurd hp Bool.false_ne_true

/-- C8: in every run of either harness a read-back `clEnqueueReadBuffer` comes only after
a join `clFinish`, and the join comes only after the dispatch `clEnqueueNDRangeKernel`,
which then returned success; in the square harness the dispatch comes only after the
blocking `clEnqueueWriteBuffer` of the input. -/
theorem C8_join_before_read_back {α : Type} (ops : FloatOps α)
    (envS : OpenCLRouting.Env α) (envA : ArraySum.Env α) :
    (∀ pre b post, (OpenCLRouting.main ops envS).trace =
        pre ++ Call.clEnqueueReadBuffer b :: post → Call.clFinish ∈ pre) ∧
    (∀ pre post, (OpenCLRouting.main ops envS).trace = pre ++ Call.clFinish :: post →
      (∃ g l, Call.clEnqueueNDRangeKernel g l ∈ pre) ∧ envS.ndRangeKernel = CL_SUCCESS) ∧
    (∀ pre g l post, (OpenCLRouting.main ops envS).trace =
        pre ++ Call.clEnqueueNDRangeKernel g l :: post →
      Call.clEnqueueWriteBuffer true ∈ pre) ∧
    (∀ pre b post, (ArraySum.main ops envA).trace =
        pre ++ Call.clEnqueueReadBuffer b :: post → Call.clFinish ∈ pre) ∧
    (∀ pre post, (ArraySum.main ops envA).trace = pre ++ Call.clFinish :: post →
      (∃ g l, Call.clEnqueueNDRangeKernel g l ∈ pre) ∧ envA.ndRangeKernel = CL_SUCCESS) := by
  refine ⟨?_, ?_, ?_, ?_, ?_⟩
  · intro pre b post h
    exact mem_of_isFinish (OpenCLRouting.square_precededBy ops _ envS Call.isFinish
      Call.isReadBack rfl rfl pre _ post h rfl)
  · intro pre post h
    refine ⟨mem_of_isDispatch (OpenCLRouting.square_precededBy ops _ envS Call.isDispatch
      Call.isFinish rfl rfl pre _ post h rfl), ?_⟩
    apply OpenCLRouting.square_finish_mem ops OpenCLRouting.NUM_VALUES envS
    show Call.clFinish ∈ (OpenCLRouting.main ops envS).trace
    rw [h]
    simp
  · intro pre g l post h
    exact mem_of_isBlockingWrite (OpenCLRouting.square_precededBy ops _ envS
      Call.isBlockingWrite Call.isDispatch rfl rfl pre _ post h rfl)
  · intro pre b post h
    exact mem_of_isFinish (ArraySum.add_precededBy ops _ envA Call.isFinish
      Call.isReadBack rfl pre _ post h rfl)
  · intro pre post h
    refine ⟨mem_of_isDispatch (ArraySum.add_precededBy ops _ envA Call.isDispatch
      Call.isFinish rfl pre _ post h rfl), ?_⟩
    apply ArraySum.add_finish_mem ops ArraySum.SIZE envA
    show Call.clFinish ∈ (ArraySum.main ops envA).trace
    rw [h]
    simp

/-- C8 on the sample devices: in the square harness the dispatch, the join and the
read-back are the 17th, 18th and 19th calls; in the add harness the join and the
read-back are the 16th and 17th. -/
theorem C8_join_before_read_back_witness :
    (OpenCLRouting.main exactOps (OpenCLRouting.squareEnv 256 (fun _ => 0))).trace =
      (OpenCLRouting.squareCalls 512000 256).take 18 ++
        Call.clEnqueueReadBuffer true :: (OpenCLRouting.squareCalls 512000 256).drop 19 ∧
    Call.clFinish ∈ (OpenCLRouting.squareCalls 512000 256).take 18 ∧
    (OpenCLRouting.main exactOps (OpenCLRouting.squareEnv 256 (fun _ => 0))).trace =
      (OpenCLRouting.squareCalls 512000 256).take 17 ++
        Call.clFinish :: (OpenCLRouting.squareCalls 512000 256).drop 18 ∧
    (∃ g l, Call.clEnqueueNDRangeKernel g l ∈ (OpenCLRouting.squareCalls 512000 256).take 17) ∧
    (OpenCLRouting.main exactOps (OpenCLRouting.squareEnv 256 (fun _ => 0))).trace =
      (OpenCLRouting.squareCalls 512000 256).take 16 ++
        Call.clEnqueueNDRangeKernel 512000 256 ::
          (OpenCLRouting.squareCalls 512000 256).drop 17 ∧
    Call.clEnqueueWriteBuffer true ∈ (OpenCLRouting.squareCalls 512000 256).take 16 ∧
    (ArraySum.main exactOps (ArraySum.addEnv 1024 (fun _ => 0))).trace =
      (ArraySum.addCalls 12345678).take 16 ++ Call.clEnqueueReadBuffer true :: [] ∧
    Call.clFinish ∈ (ArraySum.addCalls 12345678).take 16 ∧
    (ArraySum.main exactOps (ArraySum.addEnv 1024 (fun _ => 0))).trace =
      (ArraySum.addCalls 12345678).take 15 ++
        Call.clFinish :: (ArraySum.addCalls 12345678).drop 16 ∧
    (∃ g l, Call.clEnqueueNDRangeKernel g l ∈ (ArraySum.addCalls 12345678).take 15) :=
  have eS : (OpenCLRouting.main exactOps (OpenCLRouting.squareEnv 256 (fun _ => 0))).trace =
      OpenCLRouting.squareCalls 512000 256 := by
    rw [OpenCLRouting.main,
      OpenCLRouting.square_passes _ _ _ (OpenCLRouting.squareEnv_passes _ _)]
    rfl
  have eA : (ArraySum.main exactOps (ArraySum.addEnv 1024 (fun _ => 0))).trace =
      ArraySum.addCalls 12345678 := by
    rw [ArraySum.main, ArraySum.add_reaches _ _ _ (ArraySum.addEnv_reaches _ _),
      andThen_trace, ArraySum.checkResults_trace]
    rfl
  have hS1 : (OpenCLRouting.main exactOps (OpenCLRouting.squareEnv 256 (fun _ => 0))).trace =
      (OpenCLRouting.squareCalls 512000 256).take 18 ++
        Call.clEnqueueReadBuffer true :: (OpenCLRouting.squareCalls 512000 256).drop 19 :=
    eS.trans rfl
  have hS2 : (OpenCLRouting.main exactOps (OpenCLRouting.squareEnv 256 (fun _ => 0))).trace =
      (OpenCLRouting.squareCalls 512000 256).take 17 ++
        Call.clFinish :: (OpenCLRouting.squareCalls 512000 256).drop 18 :=
    eS.trans rfl
  have hS3 : (OpenCLRouting.main exactOps (OpenCLRouting.squareEnv 256 (fun _ => 0))).trace =
      (OpenCLRouting.squareCalls 512000 256).take 16 ++
        Call.clEnqueueNDRangeKernel 512000 256 ::
          (OpenCLRouting.squareCalls 512000 256).drop 17 :=
    eS.trans rfl
  have hA1 : (ArraySum.main exactOps (ArraySum.addEnv 1024 (fun _ => 0))).trace =
      (ArraySum.addCalls 12345678).take 16 ++ Call.clEnqueueReadBuffer true :: [] :=
    eA.trans rfl
  have hA2 : (ArraySum.main exactOps (ArraySum.addEnv 1024 (fun _ => 0))).trace =
      (ArraySum.addCalls 12345678).take 15 ++
        Call.clFinish :: (ArraySum.addCalls 12345678).drop 16 :=
    eA.trans rfl
  have h := C8_join_before_read_back exactOps (OpenCLRouting.squareEnv 256 (fun _ => 0))
    (ArraySum.addEnv 1024 (fun _ => 0))
  ⟨hS1, h.1 _ _ _ hS1, hS2, (h.2.1 _ _ hS2).1, hS3, h.2.2.1 _ _ _ _ hS3,
    hA1, h.2.2.2.1 _ _ _ hA1, hA2, (h.2.2.2.2 _ _ hA2).1⟩

/-! ## Failures -/

/-- C3, as the code has it: when the kernel source file cannot be opened, the add harness
ends with a non-zero exit status before any compute-API call; the square harness also
ends with a non-zero exit status, but it loads the file only after `clGetDeviceIDs`,
the four `clGetDeviceInfo` queries, `clCreateContext` and `clCreateCommandQueue`, so its
trace is a leading part of exactly those seven calls (all seven when they succeed) and
holds no program, kernel or buffer call. -/
theorem C3_source_load_failure {α : Type} (ops : FloatOps α)
    (envS : OpenCLRouting.Env α) (envA : ArraySum.Env α) :
    (envA.kernel_source = none →
      (ArraySum.main ops envA).trace = [] ∧ (ArraySum.main ops envA).exitStatus ≠ 0) ∧
    (envS.kernels_cl = none →
      (OpenCLRouting.main ops envS).exitStatus ≠ 0 ∧
      (OpenCLRouting.main ops envS).trace <+:
        [.clGetDeviceIDs, .clGetDeviceInfo, .clGetDeviceInfo, .clGetDeviceInfo,
          .clGetDeviceInfo, .clCreateContext, .clCreateCommandQueue] ∧
      (envS.getDeviceIDs = CL_SUCCESS → envS.context ≠ 0 → envS.commands ≠ 0 →
        (OpenCLRouting.main ops envS).trace =
          [.clGetDeviceIDs, .clGetDeviceInfo, .clGetDeviceInfo, .clGetDeviceInfo,
            .clGetDeviceInfo, .clCreateContext, .clCreateCommandQueue] ∧
        (OpenCLRouting.main ops envS).out =
          [OpenCLRouting.deviceInfoLine envS, "Error: Failed to load kernel file"])) := by
  constructor
  · intro h
    rcases ArraySum.add_cases ops ArraySum.SIZE envA with ⟨-, e⟩ | ⟨c, -⟩
    · rw [ArraySum.main, e]
      exact ⟨rfl, by decide⟩
    · exact absurd h c
  · intro h
    rcases OpenCLRouting.square_cases ops OpenCLRouting.NUM_VALUES envS with
      ⟨c1, e⟩ | ⟨-, ⟨c2, e⟩ | ⟨-, ⟨c3, e⟩ | ⟨-, ⟨-, e⟩ | ⟨c4, -⟩⟩⟩⟩
    · rw [OpenCLRouting.main, e]
      exact ⟨(by decide : EXIT_FAILURE % 256 ≠ 0), ⟨_, rfl⟩, fun h1 => absurd h1 c1⟩
    · rw [OpenCLRouting.main, e]
      exact ⟨(by decide : EXIT_FAILURE % 256 ≠ 0), ⟨_, rfl⟩, fun _ h2 => absurd c2 h2⟩
    · rw [OpenCLRouting.main, e]
      exact ⟨(by decide : EXIT_FAILURE % 256 ≠ 0), ⟨_, rfl⟩, fun _ _ h3 => absurd c3 h3⟩
    · rw [OpenCLRouting.main, e]
      exact ⟨(by decide : EXIT_FAILURE % 256 ≠ 0), ⟨_, rfl⟩, fun _ _ _ => ⟨rfl, rfl⟩⟩
    · exact absurd h c4

/-- C3, as the code has it, on the two sample devices without a readable kernel file. -/
theorem C3_source_load_failure_witness :
    (ArraySum.missingSourceEnv.kernel_source = none ∧
      (ArraySum.main exactOps ArraySum.missingSourceEnv).trace = [] ∧
      (ArraySum.main exactOps ArraySum.missingSourceEnv).exitStatus ≠ 0) ∧
    (OpenCLRouting.noKernelFileEnv.kernels_cl = none ∧
      (OpenCLRouting.main exactOps OpenCLRouting.noKernelFileEnv).exitStatus ≠ 0 ∧
      (OpenCLRouting.main exactOps OpenCLRouting.noKernelFileEnv).trace =
        [.clGetDeviceIDs, .clGetDeviceInfo, .clGetDeviceInfo, .clGetDeviceInfo,
          .clGetDeviceInfo, .clCreateContext, .clCreateCommandQueue]) :=
  have h := C3_source_load_failure exactOps OpenCLRouting.noKernelFileEnv
    ArraySum.missingSourceEnv
  ⟨⟨rfl, h.1 rfl⟩, ⟨rfl, (h.2 rfl).1,
    ((h.2 rfl).2.2 rfl (by decide) (by decide)).1⟩⟩

/-- C3 fails as stated for the square harness: with an unreadable `kernels.cl` and a
working device it has made seven compute-API calls by the time it gives up. -/
theorem C3_source_load_failure_counterexample :
    OpenCLRouting.noKernelFileEnv.kernels_cl = none ∧
    (OpenCLRouting.main exactOps OpenCLRouting.noKernelFileEnv).trace =
      [.clGetDeviceIDs, .clGetDeviceInfo, .clGetDeviceInfo, .clGetDeviceInfo,
        .clGetDeviceInfo, .clCreateContext, .clCreateCommandQueue] ∧
    (OpenCLRouting.main exactOps OpenCLRouting.noKernelFileEnv).trace ≠ [] := by
  refine ⟨rfl, ?_, ?_⟩ <;> decide

/-- C5, as the code has it: when `clBuildProgram` is called and reports failure, the
square harness prints its failure message, fetches the build log with
`clGetProgramBuildInfo`, prints it and ends with a non-zero exit status, the log query
being its last call; the add harness prints only `Error building program`, fetches no
log, and ends with a non-zero exit status, `clBuildProgram` being its last call. -/
theorem C5_build_failure {α : Type} (ops : FloatOps α)
    (envS : OpenCLRouting.Env α) (envA : ArraySum.Env α) :
    (Call.clBuildProgram ∈ (OpenCLRouting.main ops envS).trace →
      envS.buildProgram ≠ CL_SUCCESS →
      (OpenCLRouting.main ops envS).trace =
        [.clGetDeviceIDs, .clGetDeviceInfo, .clGetDeviceInfo, .clGetDeviceInfo,
          .clGetDeviceInfo, .clCreateContext, .clCreateCommandQueue,
          .clCreateProgramWithSource, .clBuildProgram, .clGetProgramBuildInfo] ∧
      (OpenCLRouting.main ops envS).out =
        [OpenCLRouting.deviceInfoLine envS, "Error: Failed to build program executable!",
          envS.buildLog] ∧
      (OpenCLRouting.main ops envS).exitStatus ≠ 0) ∧
    (Call.clBuildProgram ∈ (ArraySum.main ops envA).trace →
      envA.buildProgram ≠ CL_SUCCESS →
      (ArraySum.main ops envA).trace =
        [.clGetPlatformIDs, .clGetDeviceIDs, .clCreateContext, .clCreateCommandQueue,
          .clCreateProgramWithSource, .clBuildProgram] ∧
      (ArraySum.main ops envA).out = ["Error building program"] ∧
      (ArraySum.main ops envA).exitStatus ≠ 0) := by
  constructor
  · intro hm hb
    rw [OpenCLRouting.main] at hm ⊢
    rcases OpenCLRouting.square_cases ops OpenCLRouting.NUM_VALUES envS with
      ⟨-, e⟩ | ⟨-, ⟨-, e⟩ | ⟨-, ⟨-, e⟩ | ⟨-, ⟨-, e⟩ | ⟨-, ⟨-, e⟩ | ⟨-, ⟨-, e⟩ | ⟨c, -⟩⟩⟩⟩⟩⟩
    · rw [e] at hm; simp [OpenCLRouting.squareCalls] at hm
    · rw [e] at hm; simp [OpenCLRouting.squareCalls] at hm
    · rw [e] at hm; simp [OpenCLRouting.squareCalls] at hm
    · rw [e] at hm; simp [OpenCLRouting.squareCalls] at hm
    · rw [e] at hm; simp [OpenCLRouting.squareCalls] at hm
    · rw [e]
      exact ⟨rfl, rfl, (by decide : (1 : Int) % 256 ≠ 0)⟩
    · exact absurd c hb
  · intro hm hb
    rw [ArraySum.main] at hm ⊢
    rcases ArraySum.add_cases ops ArraySum.SIZE envA with
      ⟨-, e⟩ | ⟨-, ⟨-, e⟩ | ⟨-, ⟨-, e⟩ | ⟨-, ⟨-, e⟩ | ⟨-, ⟨-, e⟩ | ⟨-, ⟨-, e⟩ | ⟨-, ⟨-, e⟩ |
      ⟨-, ⟨-, e⟩ | ⟨c, -⟩⟩⟩⟩⟩⟩⟩⟩
    · rw [e] at hm; simp at hm
    · rw [e] at hm; simp at hm
    · rw [e] at hm; simp [ArraySum.addCalls] at hm
    · rw [e] at hm; simp [ArraySum.addCalls] at hm
    · rw [e] at hm; simp [ArraySum.addCalls] at hm
    · rw [e] at hm; simp [ArraySum.addCalls] at hm
    · rw [e] at hm; simp [ArraySum.addCalls] at hm
    · rw [e]
      exact ⟨rfl, rfl, (by decide : (-1 : Int) % 256 ≠ 0)⟩
    · exact absurd c hb

/-- C5, as the code has it, on the two sample devices with a kernel that does not
compile. -/
theorem C5_build_failure_witness :
    (Call.clBuildProgram ∈ (OpenCLRouting.main exactOps OpenCLRouting.brokenKernelEnv).trace ∧
      OpenCLRouting.brokenKernelEnv.buildProgram ≠ CL_SUCCESS ∧
      (OpenCLRouting.main exactOps OpenCLRouting.brokenKernelEnv).out =
        ["Sample: Sample GPU, wg size: 1024, item size: 1024",
          "Error: Failed to build program executable!",
          "kernels.cl:2:5: error: use of undeclared identifier"] ∧
      (OpenCLRouting.main exactOps OpenCLRouting.brokenKernelEnv).exitStatus ≠ 0) ∧
    (Call.clBuildProgram ∈ (ArraySum.main exactOps ArraySum.buildFailEnv).trace ∧
      ArraySum.buildFailEnv.buildProgram ≠ CL_SUCCESS ∧
      (ArraySum.main exactOps ArraySum.buildFailEnv).out = ["Error building program"] ∧
      (ArraySum.main exactOps ArraySum.buildFailEnv).exitStatus ≠ 0) :=
  have hS : Call.clBuildProgram ∈
      (OpenCLRouting.main exactOps OpenCLRouting.brokenKernelEnv).trace := by decide
  have hA : Call.clBuildProgram ∈ (ArraySum.main exactOps ArraySum.buildFailEnv).trace := by
    decide
  have h := C5_build_failure exactOps OpenCLRouting.brokenKernelEnv ArraySum.buildFailEnv
  ⟨⟨hS, by decide, (h.1 hS (by decide)).2.1, (h.1 hS (by decide)).2.2⟩,
    ⟨hA, by decide, (h.2 hA (by decide)).2.1, (h.2 hA (by decide)).2.2⟩⟩

/-- C5 fails as stated for the add harness: after a failed `clBuildProgram` it makes no
`clGetProgramBuildInfo` call and prints nothing but `Error building program`, so the
build log does not appear. -/
theorem C5_build_failure_counterexample :
    ArraySum.buildFailEnv.buildProgram ≠ CL_SUCCESS ∧
    Call.clBuildProgram ∈ (ArraySum.main exactOps ArraySum.buildFailEnv).trace ∧
    Call.clGetProgramBuildInfo ∉ (ArraySum.main exactOps ArraySum.buildFailEnv).trace ∧
    (ArraySum.main exactOps ArraySum.buildFailEnv).out = ["Error building program"] ∧
    ArraySum.buildFailEnv.buildLog ∉ (ArraySum.main exactOps ArraySum.buildFailEnv).out := by
  refine ⟨?_, ?_, ?_, ?_, ?_⟩ <;> decide

/-- C4, where the code departs from it: the exit status of the square harness is 0
exactly when every step it tests succeeds, and the status of `clEnqueueWriteBuffer` is
not tested, so the run in which only the host-to-device transfer fails ends with exit
status 0 and no run depends on that status; the exit status of the add harness is 0
exactly when every step it tests succeeds and every element validates, and the status of
`clEnqueueReadBuffer` is not tested, so no run depends on it. -/
theorem C4_unchecked_transfer_status :
    (OpenCLRouting.writeFailEnv.writeBuffer ≠ CL_SUCCESS ∧
      (OpenCLRouting.main exactOps OpenCLRouting.writeFailEnv).exitStatus = 0) ∧
    (∀ (env : OpenCLRouting.Env Int) (status : Int),
      OpenCLRouting.main exactOps { env with writeBuffer := status } =
        OpenCLRouting.main exactOps env) ∧
    (∀ (env : ArraySum.Env Int) (status : Int),
      ArraySum.main exactOps { env with readBuffer := status } =
        ArraySum.main exactOps env) ∧
    (∀ (α : Type) (ops : FloatOps α) (env : OpenCLRouting.Env α),
      (OpenCLRouting.main ops env).exitStatus = 0 ↔ env.passesChecks) ∧
    (∀ (α : Type) (ops : FloatOps α) (env : ArraySum.Env α),
      (ArraySum.main ops env).exitStatus = 0 ↔
        (env.reachesValidation ∧
          ∀ i, i < 12345678 →
            ops.eq (env.res_h i) (ops.add (ops.ofInt i) (ops.ofInt i)) = true)) := by
  have hp : OpenCLRouting.writeFailEnv.passesChecks := by
    unfold OpenCLRouting.Env.passesChecks
    decide
  refine ⟨⟨by decide, ?_⟩, fun _ _ => rfl, fun _ _ => rfl, ?_, ?_⟩
  · rw [OpenCLRouting.main, OpenCLRouting.square_passes _ _ _ hp]
    rfl
  · intro α ops env
    exact OpenCLRouting.square_exit_zero_iff ops OpenCLRouting.NUM_VALUES env
  · intro α ops env
    exact ArraySum.add_exit_zero_iff ops ArraySum.SIZE env
